import Mathlib

/-!
Shallow embedding of the window/session management core of the `profanity`
terminal messaging client, and proofs about its event and command dispatchers.

Embedded from the repository sources:
  * `ui/core.c`   — window-facing UI handlers (`ui_incoming_msg`,
    `ui_incoming_private_msg`, `ui_room_message`, `ui_switch_win`,
    `ui_close_win`, `ui_room_join`, `ui_room_subject`, `ui_room_broadcast`,
    `ui_room_requires_config`, `ui_win_has_unsaved_form`, `ui_new_chat_win`,
    `ui_gone_secure`, `_win_show_history`, …)
  * `event/server_events.c` — inbound dispatchers (`sv_ev_incoming_message`,
    `sv_ev_muc_self_online`, …); the variant compiled with both optional
    encryption engines (`HAVE_LIBOTR` and `HAVE_LIBGPGME`) is the one embedded.
  * `command/commands.c` — outbound command handlers (`cmd_wins`, `cmd_close`,
    `cmd_form`, `cmd_room`, `cmd_pgp`, `cmd_otr`).

The window registry (`wins_*`, file `window_list.c`), the MUC state store
(`muc_*`, file `muc.c`) and the command autocompleter registry
(`cmd_autocomplete_*`) are not part of the sources; those operations are
modelled from the specification and are marked `Modelled from the spec:` in
their doc comments.

State is explicit (`AppState`); every observable call into the render layer,
the chat log, the protocol layer or an encryption engine is recorded as an
`Effect` in an output trace, in program order.
-/

namespace Profanity

/-- Encryption mode of a chat conversation (`prof_enc_t` in the source). -/
inductive ProfEnc
  | PROF_ENC_NONE
  | PROF_ENC_OTR
  | PROF_ENC_PGP
  deriving DecidableEq, Repr

/-- Connection state (`jabber_conn_status_t`), abridged to the three
observable states named by the spec. -/
inductive JabberConn
  | JABBER_DISCONNECTED
  | JABBER_STARTED
  | JABBER_CONNECTED
  deriving DecidableEq, Repr

/-- Payload of a `WIN_CHAT` window (`ProfChatWin`). -/
structure ProfChatWin where
  barejid : String
  unread : Nat
  enc_mode : ProfEnc
  otr_is_trusted : Bool
  history_shown : Bool
  deriving DecidableEq, Repr

/-- Payload of a `WIN_PRIVATE` window (`ProfPrivateWin`). -/
structure ProfPrivateWin where
  fulljid : String
  unread : Nat
  deriving DecidableEq, Repr

/-- Payload of a `WIN_MUC` window (`ProfMucWin`). -/
structure ProfMucWin where
  roomjid : String
  unread : Nat
  deriving DecidableEq, Repr

/-- A room-configuration form (`DataForm`): ordered field tags plus the
modified flag. -/
structure DataForm where
  tags : List String
  modified : Bool
  deriving DecidableEq, Repr

/-- Payload of a `WIN_MUC_CONFIG` window (`ProfMucConfWin`). -/
structure ProfMucConfWin where
  roomjid : String
  form : DataForm
  deriving DecidableEq, Repr

/-- The tagged union of window kinds (`win_type_t` plus the kind-specific
payload of each `ProfWin` subtype). -/
inductive ProfWin
  | WIN_CONSOLE
  | WIN_CHAT (c : ProfChatWin)
  | WIN_PRIVATE (p : ProfPrivateWin)
  | WIN_MUC (m : ProfMucWin)
  | WIN_MUC_CONFIG (c : ProfMucConfWin)
  | WIN_XML
  deriving DecidableEq, Repr

/-- The window registry: slot number ↦ window, plus the current (focused)
slot.  Slot 1 is the console. -/
@[ext]
structure Wins where
  windows : List (Nat × ProfWin)
  current : Nat
  deriving DecidableEq, Repr

/-- Per-room MUC state (the `muc.c` record, modelled from the spec): nick,
join bookkeeping, pending subject/broadcasts, and the recorded
requires-configuration flag. -/
structure MucRoom where
  roomjid : String
  nick : String
  nick_change_pending : Bool
  roster_complete : Bool
  autojoin : Bool
  subject : Option String
  pending_broadcasts : List String
  requires_config : Bool
  role : Option String
  affiliation : Option String
  roster : List String
  deriving DecidableEq, Repr

/-- The preference flags read by the embedded handlers (`prefs_get_boolean`
and `prefs_get_string` keys). -/
structure Prefs where
  flash : Bool
  beep : Bool
  notify_message : Bool
  chlog : Bool
  history : Bool
  occupants : Bool
  muc_privileges : Bool
  notify_room : String
  notify_room_current : Bool
  notify_room_text : Bool
  wins_auto_tidy : Bool
  otr_log : String
  pgp_log : String
  otr_policy : String
  deriving DecidableEq, Repr

/-- The whole mutable state the embedded handlers touch: window registry,
MUC room records, pending room invites, the registered form-field
autocompleters (keys of the command autocompleter table), preferences and
connection state. -/
@[ext]
structure AppState where
  wins : Wins
  rooms : List MucRoom
  muc_invites : List String
  ac_fields : List String
  prefs : Prefs
  conn : JabberConn
  deriving DecidableEq, Repr

/-- Roster data for one contact, as read through `roster_get_contact`. -/
structure RosterContact where
  presence : String
  status : String
  deriving DecidableEq, Repr

/-- Pure oracles for the external collaborators consulted by the handlers
(roster, chat log read path, both encryption engines, account store). -/
structure Ext where
  roster_get_msg_display_name : String → Option String → String
  roster_get_contact : String → Option RosterContact
  get_nick_from_full_jid : String → String
  chat_log_get_previous : String → List String
  p_gpg_decrypt : String → Option String
  otr_on_message_recv : String → Option String → String → Option (String × Bool)
  p_gpg_valid_key : String → Bool
  account_pgp_keyid : String
  p_gpg_available : String → Bool
  otr_key_loaded : Bool
  otr_is_secure : String → Bool
  otr_is_trusted : String → Bool
  otr_start_query : String
  roster_barejid_from_name : String → Option String
  wins_get_prune_wins : Wins → List Nat
  p_gpg_addkey : String → String → Bool

set_option maxHeartbeats 1600000 in
/-- One observable call into a collaborator (render layer, console, chat log,
protocol layer, encryption engine, notifier), recorded in program order. -/
inductive Effect
  | win_print_incoming_message (num : Nat) (display_name message : String)
  | title_bar_set_typing (b : Bool)
  | status_bar_active (num : Nat)
  | status_bar_new (num : Nat)
  | status_bar_current (num : Nat)
  | title_bar_switch
  | title_bar_console
  | cons_show (msg : String)
  | cons_show_wins
  | cons_show_incoming_message (display_name : String) (num : Nat)
  | cons_bad_cmd_usage (command : String)
  | cons_alert
  | flash
  | beep
  | notify_message (display_name message : String)
  | notify_room_message (nick room_local : String) (ui_index : Nat) (text : Option String)
  | history_line (num : Nat) (line : String)
  | show_contact (num : Nat) (barejid : String)
  | show_status_string (num : Nat) (barejid : String)
  | win_println_line (num : Nat) (msg : String)
  | win_show (num : Nat) (msg : String)
  | room_msg_print (num : Nat) (nick message : String) (mention self : Bool)
  | room_joined_block (num : Nat) (nick : String) (role affiliation : Option String)
  | cons_autojoined (roomjid nick : String) (num : Nat)
  | room_subject_shown (num : Nat) (nick : Option String) (subject : Option String)
  | room_broadcast_shown (num : Nat) (message : String)
  | room_requires_config_block (num : Nat)
  | room_roster_shown (num : Nat)
  | room_nick_change_shown (num : Nat) (nick : String)
  | role_change_shown (num : Nat) (role : Option String) (affiliation : Option String)
  | occupantswin_occupants (roomjid : String)
  | log_error (msg : String)
  | current_print_line (msg : String)
  | form_shown (num : Nat)
  | form_help_shown (num : Nat)
  | chat_log_msg_in (barejid message : String)
  | chat_log_pgp_msg_in (barejid message : String)
  | chat_log_otr_msg_in (barejid message : String) (decrypted : Bool)
  | chat_state_gone (barejid : String)
  | chat_session_remove (barejid : String)
  | pgp_info_shown (topic : String)
  | otr_info_shown (topic : String)
  | otr_keygen_started
  | otr_trust_set (barejid : String) (trusted : Bool)
  | otr_end_session (barejid : String)
  | accounts_add_otr_policy (contact policy : String)
  | net_iq_room_info_request (roomjid : String)
  | net_iq_confirm_instant_room (roomjid : String)
  | net_iq_destroy_room (roomjid : String)
  | net_iq_request_room_config_form (roomjid : String)
  | net_iq_submit_room_config (roomjid : String)
  | net_iq_room_config_cancel (roomjid : String)
  | net_iq_room_kick_occupant (roomjid nick : String)
  | net_message_send_chat_otr (barejid msg : String)
  | net_presence_leave_chat_room (roomjid : String)

/-- True exactly on the effects that are outbound protocol (network) actions. -/
def Effect.is_net : Effect → Bool
  | Effect.net_iq_room_info_request _ => true
  | Effect.net_iq_confirm_instant_room _ => true
  | Effect.net_iq_destroy_room _ => true
  | Effect.net_iq_request_room_config_form _ => true
  | Effect.net_iq_submit_room_config _ => true
  | Effect.net_iq_room_config_cancel _ => true
  | Effect.net_iq_room_kick_occupant _ _ => true
  | Effect.net_message_send_chat_otr _ _ => true
  | Effect.net_presence_leave_chat_room _ => true
  | _ => false

/-! ### Window registry operations

Modelled from the spec (§4.1 Window Registry): the registry source file is not
part of the sources, only its callers are. -/

/-- Modelled from the spec: `lookup_by_slot(n)`, absence is a normal outcome. -/
def wins_get_by_num (ws : Wins) (n : Nat) : Option ProfWin :=
  (ws.windows.find? (fun p => p.1 == n)).map Prod.snd

/-- Modelled from the spec: whether slot `n` is the current (focused) window. -/
def wins_is_current (ws : Wins) (n : Nat) : Bool :=
  ws.current == n

/-- Modelled from the spec: the current window, if its slot is occupied. -/
def wins_get_current (ws : Wins) : Option ProfWin :=
  wins_get_by_num ws ws.current

/-- The chat-window selector underlying `wins_get_chat`. -/
def chat_sel (barejid : String) (p : Nat × ProfWin) : Option (Nat × ProfChatWin) :=
  match p.2 with
  | ProfWin.WIN_CHAT c => if c.barejid == barejid then some (p.1, c) else none
  | _ => none

/-- The private-window selector underlying `wins_get_private`. -/
def private_sel (fulljid : String) (p : Nat × ProfWin) : Option (Nat × ProfPrivateWin) :=
  match p.2 with
  | ProfWin.WIN_PRIVATE q => if q.fulljid == fulljid then some (p.1, q) else none
  | _ => none

/-- The room-window selector underlying `wins_get_muc`. -/
def muc_sel (roomjid : String) (p : Nat × ProfWin) : Option (Nat × ProfMucWin) :=
  match p.2 with
  | ProfWin.WIN_MUC m => if m.roomjid == roomjid then some (p.1, m) else none
  | _ => none

/-- The config-window selector underlying `wins_get_muc_conf`. -/
def conf_sel (roomjid : String) (p : Nat × ProfWin) : Option (Nat × ProfMucConfWin) :=
  match p.2 with
  | ProfWin.WIN_MUC_CONFIG c => if c.roomjid == roomjid then some (p.1, c) else none
  | _ => none

/-- Modelled from the spec: `lookup_by_key(Chat, barejid)` — at most one open
chat window per bare address; returns its slot and payload. -/
def wins_get_chat (ws : Wins) (barejid : String) : Option (Nat × ProfChatWin) :=
  (ws.windows.filterMap (chat_sel barejid)).head?

/-- Modelled from the spec: `lookup_by_key(Private, fulljid)`. -/
def wins_get_private (ws : Wins) (fulljid : String) : Option (Nat × ProfPrivateWin) :=
  (ws.windows.filterMap (private_sel fulljid)).head?

/-- Modelled from the spec: `lookup_by_key(Room, roomjid)`. -/
def wins_get_muc (ws : Wins) (roomjid : String) : Option (Nat × ProfMucWin) :=
  (ws.windows.filterMap (muc_sel roomjid)).head?

/-- Modelled from the spec: `lookup_by_key(RoomConfig, roomjid)`. -/
def wins_get_muc_conf (ws : Wins) (roomjid : String) : Option (Nat × ProfMucConfWin) :=
  (ws.windows.filterMap (conf_sel roomjid)).head?

/-- Apply `f` to the window stored at slot `n` (helper for the mutations the
C code performs through a window pointer). -/
def wins_update_at (ws : Wins) (n : Nat) (f : ProfWin → ProfWin) : Wins :=
  { ws with windows := ws.windows.map (fun p => if p.1 == n then (p.1, f p.2) else p) }

/-- A slot number above the console slot and above every used slot always
exists (used by the allocator; capacity exhaustion is not exercised by any
claim). -/
def exists_free_slot (l : List Nat) : ∃ n, 2 ≤ n ∧ n ∉ l := by
  have hle : ∀ a ∈ l, a ≤ l.foldr max 0 := by
    induction l with
    | nil => intro a ha; cases ha
    | cons b t ih =>
        intro a ha
        rcases List.mem_cons.mp ha with h | h
        · subst h; exact Nat.le_max_left _ _
        · exact le_trans (ih a h) (Nat.le_max_right _ _)
  refine ⟨l.foldr max 0 + 2, by omega, fun hmem => ?_⟩
  have := hle _ hmem
  omega

/-- Modelled from the spec: the lowest unused slot number above the reserved
console slot. -/
def wins_next_available_num (ws : Wins) : Nat :=
  Nat.find (exists_free_slot (ws.windows.map Prod.fst))

/-- Modelled from the spec: `create(Chat, barejid)` — allocate the next free
slot and store a fresh chat window (no encryption, nothing unread). -/
def wins_new_chat (ws : Wins) (barejid : String) : Wins × Nat :=
  let n := wins_next_available_num ws
  ({ ws with windows := ws.windows ++
      [(n, ProfWin.WIN_CHAT
        { barejid := barejid, unread := 0, enc_mode := ProfEnc.PROF_ENC_NONE,
          otr_is_trusted := false, history_shown := false })] }, n)

/-- Modelled from the spec: `create(Private, fulljid)`. -/
def wins_new_private (ws : Wins) (fulljid : String) : Wins × Nat :=
  let n := wins_next_available_num ws
  ({ ws with windows := ws.windows ++
      [(n, ProfWin.WIN_PRIVATE { fulljid := fulljid, unread := 0 })] }, n)

/-- Modelled from the spec: `create(Room, roomjid)`. -/
def wins_new_muc (ws : Wins) (roomjid : String) : Wins × Nat :=
  let n := wins_next_available_num ws
  ({ ws with windows := ws.windows ++
      [(n, ProfWin.WIN_MUC { roomjid := roomjid, unread := 0 })] }, n)

/-- Clear a window's unread counter (the `clear_unread()` capability of the
window variant model). -/
def win_clear_unread : ProfWin → ProfWin
  | ProfWin.WIN_CHAT c => ProfWin.WIN_CHAT { c with unread := 0 }
  | ProfWin.WIN_PRIVATE p => ProfWin.WIN_PRIVATE { p with unread := 0 }
  | ProfWin.WIN_MUC m => ProfWin.WIN_MUC { m with unread := 0 }
  | w => w

/-- Modelled from the spec: `set_current(n)` — focusing a window makes it
current and clears its unread counter (§8: «focus Chat(A) → unread(A) == 0»).
A slot that is not occupied is not focused. -/
def wins_set_current_by_num (ws : Wins) (n : Nat) : Wins :=
  match wins_get_by_num ws n with
  | some _ => { (wins_update_at ws n win_clear_unread) with current := n }
  | none => ws

/-- Modelled from the spec: `close(n)` removes the window, freeing its slot. -/
def wins_close_by_num (ws : Wins) (n : Nat) : Wins :=
  { ws with windows := ws.windows.filter (fun p => !(p.1 == n)) }

/-- Modelled from the spec: `swap(a, b)` exchanges two non-reserved, existing
slots' window objects; reports `NotFound` (`false`) and changes nothing if
either slot is empty or is the console slot. -/
def wins_swap (ws : Wins) (a b : Nat) : Wins × Bool :=
  if a == 1 || b == 1 then (ws, false)
  else
    match wins_get_by_num ws a, wins_get_by_num ws b with
    | some wa, some wb =>
        ({ ws with windows := ws.windows.map (fun p =>
            if p.1 == a then (p.1, wb) else if p.1 == b then (p.1, wa) else p) },
         true)
    | _, _ => (ws, false)

/-- The registry's windows listed in increasing slot order (helper for
`wins_tidy`). -/
def wins_sorted (ws : Wins) : List (Nat × ProfWin) :=
  (List.range ((ws.windows.map Prod.fst).foldr max 0 + 1)).filterMap
    (fun n => (wins_get_by_num ws n).map (fun w => (n, w)))

/-- Modelled from the spec: `tidy()` renumbers open windows to eliminate gaps,
preserving relative order, starting immediately after the console slot; the
current pointer follows its window; returns whether any change occurred. -/
def wins_tidy (ws : Wins) : Wins × Bool :=
  let sorted := wins_sorted ws
  let others := sorted.filter (fun p => !(p.1 == 1))
  let renumbered := others.enum.map (fun q => (q.1 + 2, q.2.2))
  let newWindows := sorted.filter (fun p => p.1 == 1) ++ renumbered
  let newCurrent :=
    if ws.current == 1 then 1
    else match others.findIdx? (fun p => p.1 == ws.current) with
      | some i => i + 2
      | none => ws.current
  if newWindows == ws.windows then (ws, false)
  else ({ windows := newWindows, current := newCurrent }, true)

/-! ### MUC state store operations

Modelled from the spec: `muc.c` is not part of the sources. -/

/-- Modelled from the spec: look up the per-room record. -/
def muc_get (rooms : List MucRoom) (roomjid : String) : Option MucRoom :=
  rooms.find? (fun r => r.roomjid == roomjid)

/-- Modelled from the spec: update the per-room record in place. -/
def muc_update (rooms : List MucRoom) (roomjid : String) (f : MucRoom → MucRoom) :
    List MucRoom :=
  rooms.map (fun r => if r.roomjid == roomjid then f r else r)

/-- Modelled from the spec: `muc_nick(room)` — own nick in the room. -/
def muc_nick (rooms : List MucRoom) (roomjid : String) : String :=
  match muc_get rooms roomjid with
  | some r => r.nick
  | none => ""

/-- Modelled from the spec: `muc_role_str(room)`. -/
def muc_role_str (rooms : List MucRoom) (roomjid : String) : Option String :=
  match muc_get rooms roomjid with
  | some r => r.role
  | none => none

/-- Modelled from the spec: `muc_affiliation_str(room)`. -/
def muc_affiliation_str (rooms : List MucRoom) (roomjid : String) : Option String :=
  match muc_get rooms roomjid with
  | some r => r.affiliation
  | none => none

/-- Modelled from the spec: `muc_set_role(room, role)`. -/
def muc_set_role (rooms : List MucRoom) (roomjid : String) (role : Option String) :
    List MucRoom :=
  muc_update rooms roomjid (fun r => { r with role := role })

/-- Modelled from the spec: `muc_set_affiliation(room, affiliation)`. -/
def muc_set_affiliation (rooms : List MucRoom) (roomjid : String)
    (affiliation : Option String) : List MucRoom :=
  muc_update rooms roomjid (fun r => { r with affiliation := affiliation })

/-- Modelled from the spec: `muc_nick_change_pending(room)`. -/
def muc_nick_change_pending (rooms : List MucRoom) (roomjid : String) : Bool :=
  match muc_get rooms roomjid with
  | some r => r.nick_change_pending
  | none => false

/-- Modelled from the spec: `muc_nick_change_complete(room, nick)`. -/
def muc_nick_change_complete (rooms : List MucRoom) (roomjid nick : String) :
    List MucRoom :=
  muc_update rooms roomjid (fun r => { r with nick := nick, nick_change_pending := false })

/-- Modelled from the spec: `muc_roster_complete(room)` — whether the join
roster burst has finished (the room is «joined»). -/
def muc_roster_complete (rooms : List MucRoom) (roomjid : String) : Bool :=
  match muc_get rooms roomjid with
  | some r => r.roster_complete
  | none => false

/-- Modelled from the spec: `muc_roster_set_complete(room)`. -/
def muc_roster_set_complete (rooms : List MucRoom) (roomjid : String) : List MucRoom :=
  muc_update rooms roomjid (fun r => { r with roster_complete := true })

/-- Modelled from the spec: `muc_autojoin(room)`. -/
def muc_autojoin (rooms : List MucRoom) (roomjid : String) : Bool :=
  match muc_get rooms roomjid with
  | some r => r.autojoin
  | none => false

/-- Modelled from the spec: `muc_subject(room)` — pending subject, if any. -/
def muc_subject (rooms : List MucRoom) (roomjid : String) : Option String :=
  match muc_get rooms roomjid with
  | some r => r.subject
  | none => none

/-- Modelled from the spec: `muc_pending_broadcasts(room)` — broadcast
messages queued while the join was in flight. -/
def muc_pending_broadcasts (rooms : List MucRoom) (roomjid : String) : List String :=
  match muc_get rooms roomjid with
  | some r => r.pending_broadcasts
  | none => []

/-- Modelled from the spec: `muc_requires_config(room)`. -/
def muc_requires_config (rooms : List MucRoom) (roomjid : String) : Bool :=
  match muc_get rooms roomjid with
  | some r => r.requires_config
  | none => false

/-- Modelled from the spec: `muc_set_requires_config(room, val)`. -/
def muc_set_requires_config (rooms : List MucRoom) (roomjid : String) (val : Bool) :
    List MucRoom :=
  muc_update rooms roomjid (fun r => { r with requires_config := val })

/-- Modelled from the spec: `muc_roster_add(room, nick, …)` (the occupant
roster is abstracted to the occupants' nicks). -/
def muc_roster_add (rooms : List MucRoom) (roomjid nick : String) : List MucRoom :=
  muc_update rooms roomjid (fun r =>
    { r with roster := if r.roster.contains nick then r.roster else r.roster ++ [nick] })

/-- Modelled from the spec: `muc_invites_remove(room)`. -/
def muc_invites_remove (invites : List String) (roomjid : String) : List String :=
  invites.filter (fun j => !(j == roomjid))

/-- Modelled from the spec: `muc_leave(room)` destroys the per-room record. -/
def muc_leave (rooms : List MucRoom) (roomjid : String) : List MucRoom :=
  rooms.filter (fun r => !(r.roomjid == roomjid))

/-! ### Command autocompleter registry

Modelled from the spec: registration pairs with deregistration on window
switch (§4.1); the table is keyed by field tag, so re-registration replaces. -/

/-- Modelled from the spec: `cmd_autocomplete_add_form_fields(form)` registers
each field tag; a tag already present is replaced, not duplicated. -/
def cmd_autocomplete_add_form_fields (form : DataForm) (ac : List String) : List String :=
  form.tags ++ ac.filter (fun t => !(form.tags.contains t))

/-- Modelled from the spec: `cmd_autocomplete_remove_form_fields(form)`
deregisters each field tag. -/
def cmd_autocomplete_remove_form_fields (form : DataForm) (ac : List String) :
    List String :=
  ac.filter (fun t => !(form.tags.contains t))

/-! ### Small helpers shared by the handlers -/

/-- `g_strrstr(haystack, needle) != NULL`: substring test (an empty needle is
always found, matching glib). -/
def str_contains (hay needle : String) : Bool :=
  if needle == "" then true else (hay.splitOn needle).length > 1

/-- The localpart of a JID (what `jid_create(..)->localpart` yields). -/
def jid_localpart (jid : String) : String :=
  ((jid.splitOn "@").headD jid)

/-- Accumulate decimal digits, stopping at the first non-digit (`atoi`). -/
def atoi_nat : List Char → Nat → Nat
  | [], acc => acc
  | ch :: rest, acc =>
      if '0' ≤ ch && ch ≤ '9' then atoi_nat rest (acc * 10 + (ch.toNat - '0'.toNat))
      else acc

/-- `atoi`, modelled for the plain decimal numerals the commands receive. -/
def atoi (s : String) : Int :=
  match s.data with
  | '-' :: rest => - (atoi_nat rest 0 : Int)
  | l => (atoi_nat l 0 : Int)

/-- The window number as displayed to the user: slot 10 displays as 0. -/
def ui_index_of (num : Nat) : Nat :=
  if num == 10 then 0 else num

/-- Increment a chat window's unread counter (`chatwin->unread++`). -/
def win_bump_unread : ProfWin → ProfWin
  | ProfWin.WIN_CHAT c => ProfWin.WIN_CHAT { c with unread := c.unread + 1 }
  | ProfWin.WIN_PRIVATE p => ProfWin.WIN_PRIVATE { p with unread := p.unread + 1 }
  | ProfWin.WIN_MUC m => ProfWin.WIN_MUC { m with unread := m.unread + 1 }
  | w => w

/-- The unread counter of the window at slot `num` (`ui_win_unread`). -/
def unread_at (s : AppState) (num : Nat) : Nat :=
  match wins_get_by_num s.wins num with
  | some (ProfWin.WIN_CHAT c) => c.unread
  | some (ProfWin.WIN_PRIVATE p) => p.unread
  | some (ProfWin.WIN_MUC m) => m.unread
  | _ => 0

/-- The encryption mode of the chat window at slot `num`
(`PROF_ENC_NONE` if the slot does not hold a chat window). -/
def chat_enc_mode_at (s : AppState) (num : Nat) : ProfEnc :=
  match wins_get_by_num s.wins num with
  | some (ProfWin.WIN_CHAT c) => c.enc_mode
  | _ => ProfEnc.PROF_ENC_NONE

/-- Set the encryption mode of the chat window at slot `num`
(`chatwin->enc_mode = m`). -/
def set_chat_enc_mode (s : AppState) (num : Nat) (m : ProfEnc) : AppState :=
  { s with wins := wins_update_at s.wins num (fun w =>
      match w with
      | ProfWin.WIN_CHAT c => ProfWin.WIN_CHAT { c with enc_mode := m }
      | w => w) }

/-! ### UI handlers (embedded from `ui/core.c`) -/

/-- `_win_show_history(chatwin, contact)`: replay the previously logged lines
into the chat window, once (guarded by the `history_shown` flag). -/
def win_show_history (ext : Ext) (s : AppState) (num : Nat) (contact : String) :
    AppState × List Effect :=
  match wins_get_by_num s.wins num with
  | some (ProfWin.WIN_CHAT chatwin) =>
      if !chatwin.history_shown then
        ({ s with wins := wins_update_at s.wins num (fun w =>
            match w with
            | ProfWin.WIN_CHAT c => ProfWin.WIN_CHAT { c with history_shown := true }
            | w => w) },
         (ext.chat_log_get_previous contact).map (Effect.history_line num))
      else (s, [])
  | _ => (s, [])

/-- `ui_incoming_msg(chatwin, resource, message, timestamp, win_created)`:
deliver an inbound one-to-one message to the chat window at slot `num`.
(The rendering-only encryption indicator argument present in the UI layer's
signature is not modelled; the dispatcher in this snapshot does not pass it.) -/
def ui_incoming_msg (ext : Ext) (s : AppState) (num : Nat) (resource : Option String)
    (message : String) (timestamp : Option Nat) (win_created : Bool) :
    AppState × List Effect :=
  match wins_get_by_num s.wins num with
  | some (ProfWin.WIN_CHAT chatwin) =>
      let display_name := ext.roster_get_msg_display_name chatwin.barejid resource
      let tailEffs :=
        (if s.prefs.beep then [Effect.beep] else []) ++
        (if s.prefs.notify_message then [Effect.notify_message display_name message] else [])
      if wins_is_current s.wins num then
        (s, [Effect.win_print_incoming_message num display_name message,
             Effect.title_bar_set_typing false,
             Effect.status_bar_active num] ++ tailEffs)
      else
        let flashEffs := if s.prefs.flash then [Effect.flash] else []
        let s1 := { s with wins := wins_update_at s.wins num win_bump_unread }
        let histStep :=
          if s.prefs.chlog && s.prefs.history then win_show_history ext s1 num chatwin.barejid
          else (s1, [])
        let contactEffs :=
          match timestamp, win_created, ext.roster_get_contact chatwin.barejid with
          | some _, true, some _ => [Effect.show_contact num chatwin.barejid]
          | _, _, _ => []
        (histStep.1,
         [Effect.status_bar_new num,
          Effect.cons_show_incoming_message display_name num] ++
         flashEffs ++ histStep.2 ++ contactEffs ++
         [Effect.win_print_incoming_message num display_name message] ++ tailEffs)
  | _ => (s, [])

/-- `ui_incoming_private_msg(fulljid, message, timestamp)`: deliver an inbound
private (in-room) message, creating the private window if absent. -/
def ui_incoming_private_msg (ext : Ext) (s : AppState) (fulljid : String)
    (message : String) : AppState × List Effect :=
  let display_from := ext.get_nick_from_full_jid fulljid
  let created :=
    match wins_get_private s.wins fulljid with
    | some q => (s, q.1)
    | none =>
        let wn := wins_new_private s.wins fulljid
        ({ s with wins := wn.1 }, wn.2)
  let s0 := created.1
  let num := created.2
  let tailEffs :=
    (if s0.prefs.beep then [Effect.beep] else []) ++
    (if s0.prefs.notify_message then [Effect.notify_message display_from message] else [])
  if wins_is_current s0.wins num then
    (s0, [Effect.win_print_incoming_message num display_from message,
          Effect.title_bar_set_typing false,
          Effect.status_bar_active num] ++ tailEffs)
  else
    let s1 := { s0 with wins := wins_update_at s0.wins num win_bump_unread }
    let flashEffs := if s0.prefs.flash then [Effect.flash] else []
    (s1, [Effect.status_bar_new num,
          Effect.cons_show_incoming_message display_from num,
          Effect.win_print_incoming_message num display_from message] ++
         flashEffs ++ tailEffs)

/-- `ui_room_message(roomjid, nick, message)`: deliver an inbound room
(group chat) message to the room's window. -/
def ui_room_message (s : AppState) (roomjid nick message : String) :
    AppState × List Effect :=
  match wins_get_muc s.wins roomjid with
  | none =>
      (s, [Effect.log_error ("Room message received from " ++ nick ++
            ", but no window open for " ++ roomjid)])
  | some q =>
      let num := q.1
      let my_nick := muc_nick s.rooms roomjid
      let printEffs :=
        if !(nick == my_nick) then
          [Effect.room_msg_print num nick message (str_contains message my_nick) false]
        else
          [Effect.room_msg_print num nick message false true]
      let barStep :=
        if wins_is_current s.wins num then
          (s, [Effect.status_bar_active num])
        else
          let flashEffs :=
            if s.prefs.flash && !(nick == my_nick) then [Effect.flash] else []
          ({ s with wins := wins_update_at s.wins num win_bump_unread },
           [Effect.status_bar_new num,
            Effect.cons_show_incoming_message nick num] ++ flashEffs)
      let ui_index := ui_index_of num
      if nick == my_nick then
        (barStep.1, printEffs ++ barStep.2)
      else
        let beepEffs := if s.prefs.beep then [Effect.beep] else []
        let notify :=
          (s.prefs.notify_room == "on") ||
          (s.prefs.notify_room == "mention" &&
            str_contains message.toLower nick.toLower)
        let notifyEffs :=
          if notify then
            let is_current := wins_is_current s.wins num
            if !is_current || (is_current && s.prefs.notify_room_current) then
              [Effect.notify_room_message nick (jid_localpart roomjid) ui_index
                (if s.prefs.notify_room_text then some message else none)]
            else []
          else []
        (barStep.1, printEffs ++ barStep.2 ++ beepEffs ++ notifyEffs)

/-- `ui_new_chat_win(barejid)`: create a chat window, replay logged history
when both the chat-log and history preferences are on, and show an offline
marker for offline contacts.  Returns the new window's slot. -/
def ui_new_chat_win (ext : Ext) (s : AppState) (barejid : String) :
    (AppState × Nat) × List Effect :=
  let wn := wins_new_chat s.wins barejid
  let s1 := { s with wins := wn.1 }
  let num := wn.2
  let histStep :=
    if s1.prefs.chlog && s1.prefs.history then win_show_history ext s1 num barejid
    else (s1, [])
  let offlineEffs :=
    match ext.roster_get_contact barejid with
    | some contact =>
        if contact.presence == "offline" then [Effect.show_status_string num barejid]
        else []
    | none => []
  ((histStep.1, num), histStep.2 ++ offlineEffs)

/-- `ui_switch_win(window)`: make the window at slot `num` current,
deregistering the outgoing RoomConfig window's form-field autocompleters and
registering the incoming one's. -/
def ui_switch_win (s : AppState) (num : Nat) : AppState × List Effect :=
  let s1 :=
    match wins_get_current s.wins with
    | some (ProfWin.WIN_MUC_CONFIG confwin) =>
        { s with ac_fields := cmd_autocomplete_remove_form_fields confwin.form s.ac_fields }
    | _ => s
  let s2 :=
    match wins_get_by_num s1.wins num with
    | some (ProfWin.WIN_MUC_CONFIG confwin) =>
        { s1 with ac_fields := cmd_autocomplete_add_form_fields confwin.form s1.ac_fields }
    | _ => s1
  let s3 := { s2 with wins := wins_set_current_by_num s2.wins num }
  (s3, (if num == 1 then [Effect.title_bar_console] else [Effect.title_bar_switch]) ++
       [Effect.status_bar_current num, Effect.status_bar_active num])

/-- Modelled from the spec: `ui_ev_focus_win` (ui/event layer, not in the
sources) forwards to `ui_switch_win`. -/
def ui_ev_focus_win (s : AppState) (num : Nat) : AppState × List Effect :=
  ui_switch_win s num

/-- `ui_win_has_unsaved_form(num)`: true when slot `num` holds a RoomConfig
window whose form is modified. -/
def ui_win_has_unsaved_form (ws : Wins) (num : Nat) : Bool :=
  match wins_get_by_num ws num with
  | some (ProfWin.WIN_MUC_CONFIG confwin) => confwin.form.modified
  | _ => false

/-- `ui_close_win(index)`: deregister a closing RoomConfig window's form
fields, remove the window from the registry, and re-home the render bars to
the console. -/
def ui_close_win (s : AppState) (index : Nat) : AppState × List Effect :=
  let s1 :=
    match wins_get_by_num s.wins index with
    | some (ProfWin.WIN_MUC_CONFIG confwin) =>
        { s with ac_fields := cmd_autocomplete_remove_form_fields confwin.form s.ac_fields }
    | _ => s
  let s2 := { s1 with wins := wins_close_by_num s1.wins index }
  (s2, [Effect.title_bar_console, Effect.status_bar_current 1, Effect.status_bar_active 1])

/-- `ui_room_join(roomjid, focus)`: show the joined banner in the room window
(creating it if absent); focus it, or flag activity and announce the autojoin
on the console. -/
def ui_room_join (s : AppState) (roomjid : String) (focus : Bool) :
    AppState × List Effect :=
  let created :=
    match wins_get_muc s.wins roomjid with
    | some q => (s, q.1)
    | none =>
        let wn := wins_new_muc s.wins roomjid
        ({ s with wins := wn.1 }, wn.2)
  let s1 := created.1
  let num := created.2
  let nick := muc_nick s1.rooms roomjid
  let joinEffs :=
    [Effect.room_joined_block num nick
      (if s1.prefs.muc_privileges then muc_role_str s1.rooms roomjid else none)
      (if s1.prefs.muc_privileges then muc_affiliation_str s1.rooms roomjid else none)]
  if focus then
    let fstep := ui_ev_focus_win s1 num
    (fstep.1, joinEffs ++ fstep.2)
  else
    (s1, joinEffs ++ [Effect.status_bar_active num,
                      Effect.cons_autojoined roomjid nick num])

/-- `ui_room_subject(roomjid, nick, subject)`: render a subject line in the
room window (both focus branches flag the status bar identically). -/
def ui_room_subject (s : AppState) (roomjid : String) (nick subject : Option String) :
    AppState × List Effect :=
  match wins_get_muc s.wins roomjid with
  | none =>
      (s, [Effect.log_error ("Received room subject, but no window open for " ++
            roomjid ++ ".")])
  | some q =>
      (s, [Effect.room_subject_shown q.1 nick subject, Effect.status_bar_active q.1])

/-- `ui_room_broadcast(roomjid, message)`: render a broadcast line in the room
window. -/
def ui_room_broadcast (s : AppState) (roomjid message : String) :
    AppState × List Effect :=
  match wins_get_muc s.wins roomjid with
  | none =>
      (s, [Effect.log_error ("Received room broadcast, but no window open for " ++
            roomjid ++ ".")])
  | some q =>
      (s, [Effect.room_broadcast_shown q.1 message,
           if wins_is_current s.wins q.1 then Effect.status_bar_active q.1
           else Effect.status_bar_new q.1])

/-- `ui_room_requires_config(roomjid)`: print the fixed «Room locked, requires
configuration» instructional block into the room window. -/
def ui_room_requires_config (s : AppState) (roomjid : String) :
    AppState × List Effect :=
  match wins_get_muc s.wins roomjid with
  | none =>
      (s, [Effect.log_error ("Received room config request, but no window open for " ++
            roomjid ++ ".")])
  | some q =>
      (s, [Effect.room_requires_config_block q.1,
           if wins_is_current s.wins q.1 then Effect.status_bar_active q.1
           else Effect.status_bar_new q.1])

/-- `ui_room_nick_change(roomjid, nick)`: announce the completed self nick
change in the room window. -/
def ui_room_nick_change (s : AppState) (roomjid nick : String) :
    AppState × List Effect :=
  match wins_get_muc s.wins roomjid with
  | none =>
      (s, [Effect.log_error ("Received self nick change " ++ nick ++
            ", but no window open for " ++ roomjid ++ ".")])
  | some q =>
      (s, [Effect.room_nick_change_shown q.1 nick])

/-- `ui_room_roster(roomjid, roster, presence)`: render the occupant list in
the room window (the listing text itself is rendering detail). -/
def ui_room_roster (s : AppState) (roomjid : String) : AppState × List Effect :=
  match wins_get_muc s.wins roomjid with
  | none =>
      (s, [Effect.log_error ("Received room roster but no window open for " ++
            roomjid ++ ".")])
  | some q => (s, [Effect.room_roster_shown q.1])

/-- `ui_leave_room(roomjid)`: close the room's window if one is open. -/
def ui_leave_room (s : AppState) (roomjid : String) : AppState × List Effect :=
  match wins_get_muc s.wins roomjid with
  | some q => ui_close_win s q.1
  | none => (s, [])

/-- `ui_close_connected_win(index)`: on closing while connected, leave the
room (MUC windows) or wind down the chat session and any OTR session (chat
windows). -/
def ui_close_connected_win (s : AppState) (index : Nat) : AppState × List Effect :=
  match wins_get_by_num s.wins index with
  | some (ProfWin.WIN_MUC mucwin) =>
      let s1 := { s with rooms := muc_leave s.rooms mucwin.roomjid }
      let lstep := ui_leave_room s1 mucwin.roomjid
      (lstep.1, [Effect.net_presence_leave_chat_room mucwin.roomjid] ++ lstep.2)
  | some (ProfWin.WIN_CHAT chatwin) =>
      let otrEffs :=
        if chatwin.enc_mode == ProfEnc.PROF_ENC_OTR then
          [Effect.otr_end_session chatwin.barejid]
        else []
      (s, otrEffs ++ [Effect.chat_state_gone chatwin.barejid,
                      Effect.chat_session_remove chatwin.barejid])
  | _ => (s, [])

/-- `ui_gone_secure(barejid, trusted)`: the OTR engine reports the session as
established — record ModeA on the chat window (creating it if absent) and
announce it. -/
def ui_gone_secure (s : AppState) (barejid : String) (trusted : Bool) :
    AppState × List Effect :=
  let created :=
    match wins_get_chat s.wins barejid with
    | some q => (s, q.1)
    | none =>
        let wn := wins_new_chat s.wins barejid
        ({ s with wins := wn.1 }, wn.2)
  let s0 := created.1
  let num := created.2
  let s1 := { s0 with wins := wins_update_at s0.wins num (fun w =>
      match w with
      | ProfWin.WIN_CHAT c =>
          ProfWin.WIN_CHAT { c with enc_mode := ProfEnc.PROF_ENC_OTR, otr_is_trusted := trusted }
      | w => w) }
  let startEffs :=
    if trusted then [Effect.win_show num "OTR session started (trusted)."]
    else [Effect.win_show num "OTR session started (untrusted)."]
  if wins_is_current s1.wins num then
    (s1, startEffs ++ [Effect.title_bar_switch])
  else
    (s1, startEffs ++
      [Effect.status_bar_new num,
       Effect.cons_show (barejid ++ " started an OTR session (" ++
         toString (ui_index_of num) ++ ")."),
       Effect.cons_alert])

/-- `ui_tidy_wins()`. -/
def ui_tidy_wins (s : AppState) : AppState × Bool :=
  let t := wins_tidy s.wins
  ({ s with wins := t.1 }, t.2)

/-! ### Inbound event dispatchers (embedded from `event/server_events.c`) -/

/-- `sv_ev_incoming_message(barejid, resource, message, enc_message)` — the
variant compiled with both encryption engines.  Resolves or creates the chat
window, then routes through the PGP/OTR decision tree, updating the window's
encryption mode as the source does. -/
def sv_ev_incoming_message (ext : Ext) (s : AppState) (barejid : String)
    (resource : Option String) (message : String) (enc_message : Option String) :
    AppState × List Effect :=
  let created :=
    match wins_get_chat s.wins barejid with
    | some q => (s, q.1, false)
    | none =>
        let wn := wins_new_chat s.wins barejid
        ({ s with wins := wn.1 }, wn.2, true)
  let s0 := created.1
  let num := created.2.1
  let new_win := created.2.2
  let enc_mode := chat_enc_mode_at s0 num
  match enc_message with
  | some encm =>
      if enc_mode == ProfEnc.PROF_ENC_OTR then
        (s0, [Effect.win_println_line num
               "PGP encrypted message received whilst in OTR session."])
      else
        match ext.p_gpg_decrypt encm with
        | some decrypted =>
            let preEffs :=
              if enc_mode == ProfEnc.PROF_ENC_NONE then
                [Effect.win_println_line num "PGP encryption enabled."]
              else []
            let istep := ui_incoming_msg ext s0 num resource decrypted none new_win
            (set_chat_enc_mode istep.1 num ProfEnc.PROF_ENC_PGP,
             preEffs ++ istep.2 ++ [Effect.chat_log_pgp_msg_in barejid decrypted])
        | none =>
            let istep := ui_incoming_msg ext s0 num resource message none new_win
            (set_chat_enc_mode istep.1 num ProfEnc.PROF_ENC_NONE,
             istep.2 ++ [Effect.chat_log_msg_in barejid message])
  | none =>
      if enc_mode == ProfEnc.PROF_ENC_PGP then
        let istep := ui_incoming_msg ext s0 num resource message none new_win
        (set_chat_enc_mode istep.1 num ProfEnc.PROF_ENC_NONE,
         [Effect.win_println_line num "PGP encryption disabled."] ++ istep.2 ++
         [Effect.chat_log_msg_in barejid message])
      else
        match ext.otr_on_message_recv barejid resource message with
        | some res =>
            let istep := ui_incoming_msg ext s0 num resource res.1 none new_win
            (istep.1, istep.2 ++ [Effect.chat_log_otr_msg_in barejid res.1 res.2])
        | none => (s0, [])

/-- `sv_ev_delayed_private_message` / `sv_ev_incoming_private_message` both
forward to `ui_incoming_private_msg`. -/
def sv_ev_incoming_private_message (ext : Ext) (s : AppState) (fulljid message : String) :
    AppState × List Effect :=
  ui_incoming_private_msg ext s fulljid message

/-- Flush the queued broadcast messages in order (the loop over
`muc_pending_broadcasts` in `sv_ev_muc_self_online`). -/
def flush_broadcasts (s : AppState) (roomjid : String) :
    List String → AppState × List Effect
  | [] => (s, [])
  | b :: rest =>
      let step := ui_room_broadcast s roomjid b
      let more := flush_broadcasts step.1 roomjid rest
      (more.1, step.2 ++ more.2)

/-- Tail of the first-join branch of `sv_ev_muc_self_online` (`jstep` is the
result of the `ui_room_join` call): info-request, invite cleanup,
roster-complete flag, occupant listing, pending subject, pending broadcasts,
configuration prompt, with the effect lists concatenated in program order. -/
def self_online_join_tail (jstep : AppState × List Effect) (room : String)
    (config_required : Bool) : AppState × List Effect :=
  let s1 := jstep.1
  let infoEffs := [Effect.net_iq_room_info_request room]
  let s2 := { s1 with muc_invites := muc_invites_remove s1.muc_invites room }
  let s3 := { s2 with rooms := muc_roster_set_complete s2.rooms room }
  let rstep := if !s3.prefs.occupants then ui_room_roster s3 room else (s3, [])
  let s4 := rstep.1
  let substep :=
    match muc_subject s4.rooms room with
    | some subj => ui_room_subject s4 room none (some subj)
    | none => (s4, [])
  let s5 := substep.1
  let bstep := flush_broadcasts s5 room (muc_pending_broadcasts s5.rooms room)
  let s6 := bstep.1
  let cstep :=
    if config_required then
      let s7 := { s6 with rooms := muc_set_requires_config s6.rooms room true }
      ui_room_requires_config s7 room
    else (s6, [])
  (cstep.1,
   jstep.2 ++ infoEffs ++ rstep.2 ++ substep.2 ++ bstep.2 ++ cstep.2 ++
   [Effect.occupantswin_occupants room])

/-- `sv_ev_muc_self_online(room, nick, config_required, role, affiliation, …)`:
self-presence in a room — completes a pending nick change, or completes the
join (first roster-complete edge: join banner, info request, invite cleanup,
roster display, pending subject, pending broadcasts, configuration prompt),
or diffs role/affiliation. -/
def sv_ev_muc_self_online (s : AppState) (room nick : String) (config_required : Bool)
    (role affiliation : Option String) : AppState × List Effect :=
  let sA := { s with rooms := muc_roster_add s.rooms room nick }
  let old_role := muc_role_str sA.rooms room
  let old_affiliation := muc_affiliation_str sA.rooms room
  let sB := { sA with rooms := muc_set_role sA.rooms room role }
  let sC := { sB with rooms := muc_set_affiliation sB.rooms room affiliation }
  if muc_nick_change_pending sC.rooms room then
    let sD := { sC with rooms := muc_nick_change_complete sC.rooms room nick }
    let nstep := ui_room_nick_change sD room nick
    (nstep.1, nstep.2 ++ [Effect.occupantswin_occupants room])
  else if !(muc_roster_complete sC.rooms room) then
    self_online_join_tail
      (if muc_autojoin sC.rooms room then ui_room_join sC room false
       else ui_room_join sC room true) room config_required
  else
    let privEffs :=
      if sC.prefs.muc_privileges then
        match wins_get_muc sC.wins room with
        | some q =>
            if !(role == old_role) && !(affiliation == old_affiliation) then
              [Effect.role_change_shown q.1 role affiliation]
            else if !(role == old_role) then
              [Effect.role_change_shown q.1 role none]
            else if !(affiliation == old_affiliation) then
              [Effect.role_change_shown q.1 none affiliation]
            else []
        | none => []
      else []
    (sC, privEffs ++ [Effect.occupantswin_occupants room])

/-! ### Outbound command handlers (embedded from `command/commands.c`) -/

/-- `cmd_room(window, args)`: `/room accept|destroy|config` against the
current window. -/
def cmd_room (s : AppState) (args : List String) : AppState × List Effect :=
  if !(s.conn == JabberConn.JABBER_CONNECTED) then
    (s, [Effect.cons_show "You are not currently connected."])
  else
    match wins_get_current s.wins with
    | some (ProfWin.WIN_MUC mucwin) =>
        let a0 := args.get? 0
        if !(a0 == some "accept") && !(a0 == some "destroy") && !(a0 == some "config") then
          (s, [Effect.cons_bad_cmd_usage "/room"])
        else
          let num := s.wins.current
          if a0 == some "accept" then
            if !(muc_requires_config s.rooms mucwin.roomjid) then
              (s, [Effect.win_show num "Current room does not require configuration."])
            else
              ({ s with rooms := muc_set_requires_config s.rooms mucwin.roomjid false },
               [Effect.net_iq_confirm_instant_room mucwin.roomjid,
                Effect.win_show num "Room unlocked."])
          else if a0 == some "destroy" then
            (s, [Effect.net_iq_destroy_room mucwin.roomjid])
          else
            match wins_get_muc_conf s.wins mucwin.roomjid with
            | some q => ui_ev_focus_win s q.1
            | none => (s, [Effect.net_iq_request_room_config_form mucwin.roomjid])
    | _ => (s, [Effect.cons_show "Command '/room' does not apply to this window."])

/-- `cmd_form(window, args)`: `/form submit|cancel|show|help` against the
current (RoomConfig) window; submit/cancel send the protocol action,
deregister the form fields, close the window and re-focus the underlying room
window when still open, else the console. -/
def cmd_form (s : AppState) (args : List String) : AppState × List Effect :=
  if !(s.conn == JabberConn.JABBER_CONNECTED) then
    (s, [Effect.cons_show "You are not currently connected."])
  else
    match wins_get_current s.wins with
    | some (ProfWin.WIN_MUC_CONFIG confwin) =>
        let a0 := args.get? 0
        if !(a0 == some "submit") && !(a0 == some "cancel") &&
           !(a0 == some "show") && !(a0 == some "help") then
          (s, [Effect.cons_bad_cmd_usage "/form"])
        else if a0 == some "show" then
          (s, [Effect.form_shown s.wins.current])
        else if a0 == some "help" then
          (s, [Effect.form_help_shown s.wins.current, Effect.current_print_line ""])
        else
          let subEffs :=
            if a0 == some "submit" then [Effect.net_iq_submit_room_config confwin.roomjid]
            else []
          let canEffs :=
            if a0 == some "cancel" then [Effect.net_iq_room_config_cancel confwin.roomjid]
            else []
          let s1 := { s with ac_fields :=
              cmd_autocomplete_remove_form_fields confwin.form s.ac_fields }
          let s2 := { s1 with wins := wins_close_by_num s1.wins s1.wins.current }
          let fstep :=
            match wins_get_muc s2.wins confwin.roomjid with
            | some q => ui_ev_focus_win s2 q.1
            | none => ui_ev_focus_win s2 1
          (fstep.1, subEffs ++ canEffs ++ fstep.2)
    | _ => (s, [Effect.cons_show "Command '/form' does not apply to this window."])

/-- The numeric tail of `cmd_close` (from the `index` checks onwards). -/
def cmd_close_index (s : AppState) (index : Int) : AppState × List Effect :=
  if index < 0 || index == 10 then
    (s, [Effect.cons_show "No such window exists."])
  else if index == 1 then
    (s, [Effect.cons_show "Cannot close console window."])
  else
    let n := index.toNat
    match wins_get_by_num s.wins n with
    | none => (s, [Effect.cons_show "Window is not open."])
    | some _ =>
        if ui_win_has_unsaved_form s.wins n then
          (s, [Effect.current_print_line
                "You have unsaved changes, use /form submit or /form cancel"])
        else
          let cstep :=
            if s.conn == JabberConn.JABBER_CONNECTED then ui_close_connected_win s n
            else (s, [])
          let wstep := ui_close_win cstep.1 n
          let tstep :=
            if wstep.1.prefs.wins_auto_tidy then (ui_tidy_wins wstep.1).1 else wstep.1
          (tstep, cstep.2 ++ wstep.2 ++
            [Effect.cons_show ("Closed window " ++ toString n)])

/-- The loop bodies of `/close all` and `/close read`: close every eligible
window (never the console, never an unsaved form; for `read` only windows with
nothing unread), counting the closures. -/
def close_wins_loop (s : AppState) (nums : List Nat) (readOnly : Bool) :
    AppState × Nat × List Effect :=
  match nums with
  | [] => (s, 0, [])
  | num :: rest =>
      if !(num == 1) && (!readOnly || unread_at s num == 0) &&
         !(ui_win_has_unsaved_form s.wins num) then
        let cstep :=
          if s.conn == JabberConn.JABBER_CONNECTED then ui_close_connected_win s num
          else (s, [])
        let wstep := ui_close_win cstep.1 num
        let more := close_wins_loop wstep.1 rest readOnly
        (more.1, more.2.1 + 1, cstep.2 ++ wstep.2 ++ more.2.2)
      else
        let more := close_wins_loop s rest readOnly
        (more.1, more.2.1, more.2.2)

/-- The «Closed n windows.» console message of `/close all` and `/close read`. -/
def closed_count_msg (count : Nat) : String :=
  if count == 0 then "No windows to close."
  else if count == 1 then "Closed 1 window."
  else "Closed " ++ toString count ++ " windows."

/-- `cmd_close(window, args)`: `/close [n|all|read]`. -/
def cmd_close (s : AppState) (args : List String) : AppState × List Effect :=
  match args.get? 0 with
  | none => cmd_close_index s (Int.ofNat s.wins.current)
  | some a0 =>
      if a0 == "all" then
        let lstep := close_wins_loop s (s.wins.windows.map Prod.fst) false
        (lstep.1, lstep.2.2 ++ [Effect.cons_show (closed_count_msg lstep.2.1)])
      else if a0 == "read" then
        let lstep := close_wins_loop s (s.wins.windows.map Prod.fst) true
        (lstep.1, lstep.2.2 ++ [Effect.cons_show (closed_count_msg lstep.2.1)])
      else
        cmd_close_index s (atoi a0)

/-- The loop body of `ui_prune_wins`: wind down the chat session of each
pruned chat window (when connected) and close it; the caller tidies after. -/
def prune_wins_loop (s : AppState) (nums : List Nat) : AppState × List Effect :=
  match nums with
  | [] => (s, [])
  | num :: rest =>
      let sessEffs :=
        match wins_get_by_num s.wins num with
        | some (ProfWin.WIN_CHAT chatwin) =>
            if s.conn == JabberConn.JABBER_CONNECTED then
              [Effect.chat_session_remove chatwin.barejid]
            else []
        | _ => []
      let wstep := ui_close_win s num
      let more := prune_wins_loop wstep.1 rest
      (more.1, sessEffs ++ wstep.2 ++ more.2)

/-- `cmd_wins(window, args)`: `/wins [tidy|prune|swap a b]`. -/
def cmd_wins (ext : Ext) (s : AppState) (args : List String) : AppState × List Effect :=
  match args.get? 0 with
  | none => (s, [Effect.cons_show_wins])
  | some a0 =>
      if a0 == "tidy" then
        let t := ui_tidy_wins s
        (t.1, [Effect.cons_show (if t.2 then "Windows tidied." else "No tidy needed.")])
      else if a0 == "prune" then
        let candidates := ext.wins_get_prune_wins s.wins
        let lstep := prune_wins_loop s candidates
        let t := ui_tidy_wins lstep.1
        (t.1, lstep.2 ++
          [Effect.cons_show (if candidates.isEmpty then "No prune needed."
                             else "Windows pruned.")])
      else if a0 == "swap" then
        match args.get? 1, args.get? 2 with
        | some a1, some a2 =>
            let source_win := atoi a1
            let target_win := atoi a2
            if source_win == 1 || target_win == 1 then
              (s, [Effect.cons_show "Cannot move console window."])
            else if source_win == 10 || target_win == 10 then
              (s, [Effect.cons_show "Window 10 does not exist"])
            else if !(source_win == target_win) then
              let sw := wins_swap s.wins source_win.toNat target_win.toNat
              if sw.2 then
                ({ s with wins := sw.1 },
                 [Effect.cons_show ("Swapped windows " ++ toString source_win ++
                   " <-> " ++ toString target_win)])
              else
                (s, [Effect.cons_show ("Window " ++ toString source_win ++
                  " does not exist")])
            else
              (s, [Effect.cons_show "Same source and target window supplied."])
        | _, _ => (s, [Effect.cons_bad_cmd_usage "/wins"])
      else
        (s, [Effect.cons_bad_cmd_usage "/wins"])

/-- `ui_gone_insecure(barejid)`: the OTR session ended — reset the chat
window's mode to none. -/
def ui_gone_insecure (s : AppState) (barejid : String) : AppState × List Effect :=
  match wins_get_chat s.wins barejid with
  | some q =>
      let num := q.1
      let s1 := { s with wins := wins_update_at s.wins num (fun w =>
          match w with
          | ProfWin.WIN_CHAT c =>
              ProfWin.WIN_CHAT { c with enc_mode := ProfEnc.PROF_ENC_NONE,
                                        otr_is_trusted := false }
          | w => w) }
      (s1, [Effect.win_show num "OTR session ended."] ++
           (if wins_is_current s1.wins num then [Effect.title_bar_switch] else []))
  | none => (s, [])

/-- `ui_trust(barejid)`: mark the OTR session trusted on the chat window. -/
def ui_trust (s : AppState) (barejid : String) : AppState × List Effect :=
  match wins_get_chat s.wins barejid with
  | some q =>
      let num := q.1
      let s1 := { s with wins := wins_update_at s.wins num (fun w =>
          match w with
          | ProfWin.WIN_CHAT c =>
              ProfWin.WIN_CHAT { c with enc_mode := ProfEnc.PROF_ENC_OTR,
                                        otr_is_trusted := true }
          | w => w) }
      (s1, [Effect.win_show num "OTR session trusted."] ++
           (if wins_is_current s1.wins num then [Effect.title_bar_switch] else []))
  | none => (s, [])

/-- `ui_untrust(barejid)`: mark the OTR session untrusted on the chat window. -/
def ui_untrust (s : AppState) (barejid : String) : AppState × List Effect :=
  match wins_get_chat s.wins barejid with
  | some q =>
      let num := q.1
      let s1 := { s with wins := wins_update_at s.wins num (fun w =>
          match w with
          | ProfWin.WIN_CHAT c =>
              ProfWin.WIN_CHAT { c with enc_mode := ProfEnc.PROF_ENC_OTR,
                                        otr_is_trusted := false }
          | w => w) }
      (s1, [Effect.win_show num "OTR session untrusted."] ++
           (if wins_is_current s1.wins num then [Effect.title_bar_switch] else []))
  | none => (s, [])

/-- The hint `cmd_pgp`/`cmd_otr` print after enabling plaintext/redacted
logging while chat logging is off. -/
def chlog_hint (s : AppState) : List Effect :=
  if !s.prefs.chlog then
    [Effect.cons_show "Chat logging is currently disabled, use '/chlog on' to enable."]
  else []

/-- The mode checks and mode assignment shared by both resolution paths of
`/pgp start` (from the `enc_mode` check onwards). -/
def cmd_pgp_start_checks (ext : Ext) (s : AppState) (num : Nat) (pre : List Effect) :
    AppState × List Effect :=
  match wins_get_by_num s.wins num with
  | some (ProfWin.WIN_CHAT chatwin) =>
      if chatwin.enc_mode == ProfEnc.PROF_ENC_OTR then
        (s, pre ++ [Effect.current_print_line
              "You must end the OTR session to start PGP encryption."])
      else if chatwin.enc_mode == ProfEnc.PROF_ENC_PGP then
        (s, pre ++ [Effect.current_print_line "You have already started PGP encryption."])
      else if !(ext.p_gpg_valid_key ext.account_pgp_keyid) then
        (s, pre ++ [Effect.current_print_line
              "You must specify a valid PGP key ID for this account to start PGP encryption."])
      else if !(ext.p_gpg_available chatwin.barejid) then
        (s, pre ++ [Effect.current_print_line
              ("No PGP key found for " ++ chatwin.barejid ++ ".")])
      else
        (set_chat_enc_mode s num ProfEnc.PROF_ENC_PGP,
         pre ++ [Effect.current_print_line "PGP encyption enabled."])
  | _ => (s, pre)

/-- `cmd_pgp(window, args)` — the `HAVE_LIBGPGME` build.  The console
listings of `keys`/`fps`/`libver` only print oracle data and are abstracted
to a single marker effect each. -/
def cmd_pgp (ext : Ext) (s : AppState) (args : List String) : AppState × List Effect :=
  match args.get? 0 with
  | none => (s, [Effect.cons_bad_cmd_usage "/pgp"])
  | some a0 =>
      if a0 == "log" then
        match args.get? 1 with
        | some "on" =>
            ({ s with prefs := { s.prefs with pgp_log := "on" } },
             [Effect.cons_show "PGP messages will be logged as plaintext."] ++ chlog_hint s)
        | some "off" =>
            ({ s with prefs := { s.prefs with pgp_log := "off" } },
             [Effect.cons_show "PGP message logging disabled."])
        | some "redact" =>
            ({ s with prefs := { s.prefs with pgp_log := "redact" } },
             [Effect.cons_show "PGP messages will be logged as '[redacted]'."] ++
             chlog_hint s)
        | _ => (s, [Effect.cons_bad_cmd_usage "/pgp"])
      else if a0 == "keys" then
        (s, [Effect.pgp_info_shown "keys"])
      else if a0 == "setkey" then
        if !(s.conn == JabberConn.JABBER_CONNECTED) then
          (s, [Effect.cons_show "You are not currently connected."])
        else
          match args.get? 1, args.get? 2 with
          | some jid, some keyid =>
              if ext.p_gpg_addkey jid keyid then
                (s, [Effect.cons_show ("Key " ++ keyid ++ " set for " ++ jid ++ ".")])
              else
                (s, [Effect.cons_show "Key ID not found."])
          | _, _ => (s, [Effect.cons_bad_cmd_usage "/pgp"])
      else if a0 == "fps" then
        if !(s.conn == JabberConn.JABBER_CONNECTED) then
          (s, [Effect.cons_show "You are not currently connected."])
        else
          (s, [Effect.pgp_info_shown "fps"])
      else if a0 == "libver" then
        (s, [Effect.pgp_info_shown "libver"])
      else if a0 == "start" then
        if !(s.conn == JabberConn.JABBER_CONNECTED) then
          (s, [Effect.cons_show "You must be connected to start PGP encrpytion."])
        else
          match args.get? 1 with
          | none =>
              match wins_get_current s.wins with
              | some (ProfWin.WIN_CHAT _) =>
                  cmd_pgp_start_checks ext s s.wins.current []
              | _ =>
                  (s, [Effect.cons_show
                        "You must be in a regular chat window to start PGP encrpytion."])
          | some contact =>
              let barejid := (ext.roster_barejid_from_name contact).getD contact
              let resolved :=
                match wins_get_chat s.wins barejid with
                | some q => (s, q.1, ([] : List Effect))
                | none =>
                    let nstep := ui_new_chat_win ext s barejid
                    (nstep.1.1, nstep.1.2, nstep.2)
              let fstep := ui_ev_focus_win resolved.1 resolved.2.1
              cmd_pgp_start_checks ext fstep.1 resolved.2.1 (resolved.2.2 ++ fstep.2)
      else if a0 == "end" then
        if !(s.conn == JabberConn.JABBER_CONNECTED) then
          (s, [Effect.cons_show "You are not currently connected."])
        else
          match wins_get_current s.wins with
          | some (ProfWin.WIN_CHAT chatwin) =>
              if !(chatwin.enc_mode == ProfEnc.PROF_ENC_PGP) then
                (s, [Effect.current_print_line "PGP encryption is not currently enabled."])
              else
                (set_chat_enc_mode s s.wins.current ProfEnc.PROF_ENC_NONE,
                 [Effect.current_print_line "PGP encyption disabled."])
          | _ =>
              (s, [Effect.cons_show
                    "You must be in a regular chat window to end PGP encrpytion."])
      else (s, [Effect.cons_bad_cmd_usage "/pgp"])

/-- The mode checks shared by both resolution paths of `/otr start` once the
chat window is resolved; `query` says whether to fall through to sending the
handshake query (the no-recipient path always queries, the recipient path
first consults `otr_is_secure`). -/
def cmd_otr_start_checks (ext : Ext) (s : AppState) (num : Nat) (viaRecipient : Bool)
    (pre : List Effect) : AppState × List Effect :=
  match wins_get_by_num s.wins num with
  | some (ProfWin.WIN_CHAT chatwin) =>
      if chatwin.enc_mode == ProfEnc.PROF_ENC_PGP then
        (s, pre ++ [Effect.current_print_line
              "You must disable PGP encryption before starting an OTR session."])
      else if chatwin.enc_mode == ProfEnc.PROF_ENC_OTR then
        (s, pre ++ [Effect.current_print_line "You are already in an OTR session."])
      else if !ext.otr_key_loaded then
        (s, pre ++ [Effect.current_print_line
              "You have not generated or loaded a private key, use '/otr gen'"])
      else if viaRecipient && ext.otr_is_secure chatwin.barejid then
        let gstep := ui_gone_secure s chatwin.barejid (ext.otr_is_trusted chatwin.barejid)
        (gstep.1, pre ++ gstep.2)
      else
        (s, pre ++ [Effect.net_message_send_chat_otr chatwin.barejid ext.otr_start_query])
  | _ => (s, pre)

/-- `cmd_otr(window, args)` — the `HAVE_LIBOTR` build.  The fingerprint
listings and the SMP engine calls print/forward oracle data only and are
abstracted to marker effects. -/
def cmd_otr (ext : Ext) (s : AppState) (args : List String) : AppState × List Effect :=
  match args.get? 0 with
  | none => (s, [Effect.cons_bad_cmd_usage "/otr"])
  | some a0 =>
      if a0 == "log" then
        match args.get? 1 with
        | some "on" =>
            ({ s with prefs := { s.prefs with otr_log := "on" } },
             [Effect.cons_show "OTR messages will be logged as plaintext."] ++ chlog_hint s)
        | some "off" =>
            ({ s with prefs := { s.prefs with otr_log := "off" } },
             [Effect.cons_show "OTR message logging disabled."])
        | some "redact" =>
            ({ s with prefs := { s.prefs with otr_log := "redact" } },
             [Effect.cons_show "OTR messages will be logged as '[redacted]'."] ++
             chlog_hint s)
        | _ => (s, [Effect.cons_bad_cmd_usage "/otr"])
      else if a0 == "libver" then
        (s, [Effect.otr_info_shown "libver"])
      else if a0 == "policy" then
        match args.get? 1 with
        | none =>
            (s, [Effect.cons_show ("OTR policy is now set to: " ++ s.prefs.otr_policy)])
        | some choice =>
            if !(choice == "manual") && !(choice == "opportunistic") &&
               !(choice == "always") then
              (s, [Effect.cons_show "OTR policy can be set to: manual, opportunistic or always."])
            else
              match args.get? 2 with
              | none =>
                  ({ s with prefs := { s.prefs with otr_policy := choice } },
                   [Effect.cons_show ("OTR policy is now set to: " ++ choice)])
              | some contact =>
                  if !(s.conn == JabberConn.JABBER_CONNECTED) then
                    (s, [Effect.cons_show
                          "You must be connected to set the OTR policy for a contact."])
                  else
                    let contact_jid := (ext.roster_barejid_from_name contact).getD contact
                    (s, [Effect.accounts_add_otr_policy contact_jid choice,
                         Effect.cons_show ("OTR policy for " ++ contact_jid ++
                           " set to: " ++ choice)])
      else if !(s.conn == JabberConn.JABBER_CONNECTED) then
        (s, [Effect.cons_show "You must be connected with an account to load OTR information."])
      else if a0 == "gen" then
        (s, [Effect.otr_keygen_started])
      else if a0 == "myfp" then
        if !ext.otr_key_loaded then
          (s, [Effect.current_print_line
                "You have not generated or loaded a private key, use '/otr gen'"])
        else
          (s, [Effect.otr_info_shown "myfp"])
      else if a0 == "theirfp" then
        match wins_get_current s.wins with
        | some (ProfWin.WIN_CHAT chatwin) =>
            if !(chatwin.enc_mode == ProfEnc.PROF_ENC_OTR) then
              (s, [Effect.current_print_line "You are not currently in an OTR session."])
            else
              (s, [Effect.otr_info_shown "theirfp"])
        | _ =>
            (s, [Effect.current_print_line
                  "You must be in a regular chat window to view a recipient's fingerprint."])
      else if a0 == "start" then
        match args.get? 1 with
        | some contact =>
            let barejid := (ext.roster_barejid_from_name contact).getD contact
            let resolved :=
              match wins_get_chat s.wins barejid with
              | some q => (s, q.1, ([] : List Effect))
              | none =>
                  let nstep := ui_new_chat_win ext s barejid
                  (nstep.1.1, nstep.1.2, nstep.2)
            let fstep := ui_ev_focus_win resolved.1 resolved.2.1
            cmd_otr_start_checks ext fstep.1 resolved.2.1 true (resolved.2.2 ++ fstep.2)
        | none =>
            match wins_get_current s.wins with
            | some (ProfWin.WIN_CHAT _) =>
                cmd_otr_start_checks ext s s.wins.current false []
            | _ =>
                (s, [Effect.current_print_line
                      "You must be in a regular chat window to start an OTR session."])
      else if a0 == "end" then
        match wins_get_current s.wins with
        | some (ProfWin.WIN_CHAT chatwin) =>
            if !(chatwin.enc_mode == ProfEnc.PROF_ENC_OTR) then
              (s, [Effect.current_print_line "You are not currently in an OTR session."])
            else
              let gstep := ui_gone_insecure s chatwin.barejid
              (gstep.1, gstep.2 ++ [Effect.otr_end_session chatwin.barejid])
        | _ =>
            (s, [Effect.current_print_line "You must be in a regular chat window to use OTR."])
      else if a0 == "trust" then
        match wins_get_current s.wins with
        | some (ProfWin.WIN_CHAT chatwin) =>
            if !(chatwin.enc_mode == ProfEnc.PROF_ENC_OTR) then
              (s, [Effect.current_print_line "You are not currently in an OTR session."])
            else
              let tstep := ui_trust s chatwin.barejid
              (tstep.1, tstep.2 ++ [Effect.otr_trust_set chatwin.barejid true])
        | _ =>
            (s, [Effect.current_print_line "You must be in an OTR session to trust a recipient."])
      else if a0 == "untrust" then
        match wins_get_current s.wins with
        | some (ProfWin.WIN_CHAT chatwin) =>
            if !(chatwin.enc_mode == ProfEnc.PROF_ENC_OTR) then
              (s, [Effect.current_print_line "You are not currently in an OTR session."])
            else
              let tstep := ui_untrust s chatwin.barejid
              (tstep.1, tstep.2 ++ [Effect.otr_trust_set chatwin.barejid false])
        | _ =>
            (s, [Effect.current_print_line "You must be in an OTR session to trust a recipient."])
      else if a0 == "secret" || a0 == "question" || a0 == "answer" then
        match wins_get_current s.wins with
        | some (ProfWin.WIN_CHAT chatwin) =>
            if !(chatwin.enc_mode == ProfEnc.PROF_ENC_OTR) then
              (s, [Effect.current_print_line "You are not currently in an OTR session."])
            else
              (s, [Effect.otr_info_shown ("smp_" ++ a0)])
        | _ =>
            (s, [Effect.current_print_line "You must be in an OTR session to trust a recipient."])
      else (s, [Effect.cons_bad_cmd_usage "/otr"])

/-! ### Effect classifiers used by the theorems -/

/-- The flush steps of room-join completion: pending subject, pending
broadcasts, required-configuration prompt. -/
def Effect.is_flush : Effect → Bool
  | Effect.room_subject_shown _ _ _ => true
  | Effect.room_broadcast_shown _ _ => true
  | Effect.room_requires_config_block _ => true
  | _ => false

/-- The join banner of room-join completion. -/
def Effect.is_join : Effect → Bool
  | Effect.room_joined_block _ _ _ _ => true
  | _ => false

/-- The required-configuration instructional block. -/
def Effect.is_config_block : Effect → Bool
  | Effect.room_requires_config_block _ => true
  | _ => false

/-- Replayed chat-history lines. -/
def Effect.is_history_line : Effect → Bool
  | Effect.history_line _ _ => true
  | _ => false

/-- The rendering of an inbound one-to-one message. -/
def Effect.is_incoming_print : Effect → Bool
  | Effect.win_print_incoming_message _ _ _ => true
  | _ => false

/-! ### Concrete sample data used by the witnesses -/

/-- Sample preferences: every toggle off. -/
def samplePrefs : Prefs :=
  { flash := false, beep := false, notify_message := false, chlog := false,
    history := false, occupants := false, muc_privileges := false,
    notify_room := "off", notify_room_current := false, notify_room_text := false,
    wins_auto_tidy := false, otr_log := "redact", pgp_log := "redact",
    otr_policy := "manual" }

/-- Sample chat window payload for `alice@ex.org`. -/
def sampleChat : ProfChatWin :=
  { barejid := "alice@ex.org", unread := 0, enc_mode := ProfEnc.PROF_ENC_NONE,
    otr_is_trusted := false, history_shown := false }

/-- Sample room record for `r@conf`, joining and not yet joined. -/
def sampleRoom : MucRoom :=
  { roomjid := "r@conf", nick := "me", nick_change_pending := false,
    roster_complete := false, autojoin := false, subject := some "subj",
    pending_broadcasts := ["b1", "b2"], requires_config := false,
    role := none, affiliation := none, roster := [] }

/-- Sample form with one modified field. -/
def sampleForm : DataForm :=
  { tags := ["muc#roomconfig_roomname"], modified := true }

/-- Sample state: console, a chat window, a room window, a private window and
a room-configuration window; the console is current. -/
def sampleState : AppState :=
  { wins :=
      { windows :=
          [(1, ProfWin.WIN_CONSOLE),
           (2, ProfWin.WIN_CHAT sampleChat),
           (3, ProfWin.WIN_MUC { roomjid := "r@conf", unread := 0 }),
           (4, ProfWin.WIN_PRIVATE { fulljid := "r@conf/bob", unread := 0 }),
           (5, ProfWin.WIN_MUC_CONFIG { roomjid := "r@conf", form := sampleForm })],
        current := 1 },
    rooms := [sampleRoom], muc_invites := [], ac_fields := [], prefs := samplePrefs,
    conn := JabberConn.JABBER_CONNECTED }

/-- Sample state with a modified room-configuration form sitting at slot 10
(the slot whose display number wraps to 0). -/
def sampleState10 : AppState :=
  { sampleState with wins :=
      { windows :=
          [(1, ProfWin.WIN_CONSOLE),
           (10, ProfWin.WIN_MUC_CONFIG { roomjid := "r@conf", form := sampleForm })],
        current := 1 } }

/-- Sample collaborator oracles. -/
def sampleExt : Ext :=
  { roster_get_msg_display_name := fun b _ => b,
    roster_get_contact := fun _ => none,
    get_nick_from_full_jid := fun f => f,
    chat_log_get_previous := fun _ => ["hist1", "hist2"],
    p_gpg_decrypt := fun _ => some "decrypted",
    otr_on_message_recv := fun _ _ m => some (m, false),
    p_gpg_valid_key := fun _ => true,
    account_pgp_keyid := "KEY",
    p_gpg_available := fun _ => true,
    otr_key_loaded := true,
    otr_is_secure := fun _ => false,
    otr_is_trusted := fun _ => false,
    otr_start_query := "?OTRv2?",
    roster_barejid_from_name := fun _ => none,
    wins_get_prune_wins := fun _ => [],
    p_gpg_addkey := fun _ _ => true }

/-! ### Shared lemmas about the registry and MUC store -/

theorem find_map_slot_update (l : List (Nat × ProfWin)) (n m : Nat)
    (f : ProfWin → ProfWin) :
    (l.map (fun p => if p.1 == n then (p.1, f p.2) else p)).find? (fun p => p.1 == m) =
      if m = n then (l.find? (fun p => p.1 == m)).map (fun p => (p.1, f p.2))
      else l.find? (fun p => p.1 == m) := by
  induction l with
  | nil => by_cases h : m = n <;> simp [h]
  | cons a t ih =>
      simp only [List.map_cons, List.find?_cons]
      cases hbn : (a.1 == n) <;> cases hbm : (a.1 == m)
      · simp only [cond_false]
        rw [ih]
        by_cases hmn : m = n <;> simp [hmn, List.find?_cons, hbm, hbn]
      · have hmn : ¬(m = n) := by
          intro h
          subst h
          rw [beq_iff_eq] at hbm
          rw [hbm] at hbn
          simp at hbn
        simp [hmn, List.find?_cons, hbm]
      · have hmn : ¬(m = n) := by
          intro h
          subst h
          rw [beq_iff_eq] at hbn
          rw [hbn] at hbm
          simp at hbm
        simp only [cond_true, cond_false, hbm]
        rw [ih]
        simp [hmn, List.find?_cons, hbm]
      · have hmn : m = n := by
          rw [beq_iff_eq] at hbn hbm
          omega
        simp [hmn, List.find?_cons, hbm, hbn]

theorem wins_get_by_num_update_at (ws : Wins) (n m : Nat) (f : ProfWin → ProfWin) :
    wins_get_by_num (wins_update_at ws n f) m =
      if m = n then (wins_get_by_num ws m).map f else wins_get_by_num ws m := by
  unfold wins_get_by_num wins_update_at
  simp only [find_map_slot_update]
  by_cases h : m = n
  · simp only [h, if_true]
    cases List.find? (fun p => p.1 == n) ws.windows <;> simp
  · simp [h]

theorem find_map_fst_preserving (l : List (Nat × ProfWin)) (m : Nat)
    (g : (Nat × ProfWin) → (Nat × ProfWin)) (hg : ∀ p, (g p).1 = p.1) :
    (l.map g).find? (fun p => p.1 == m) = (l.find? (fun p => p.1 == m)).map g := by
  induction l with
  | nil => simp
  | cons a t ih =>
      simp only [List.map_cons, List.find?_cons, hg a]
      cases hb : (a.1 == m) <;> simp [hb, ih]

theorem wins_update_at_clear_clear (ws : Wins) (n : Nat) :
    wins_update_at (wins_update_at ws n win_clear_unread) n win_clear_unread =
      wins_update_at ws n win_clear_unread := by
  unfold wins_update_at
  simp only [List.map_map]
  congr 1
  apply List.map_congr_left
  intro p _
  by_cases h : p.1 = n
  · simp only [Function.comp, h, beq_self_eq_true, if_true]
    cases p.2 <;> rfl
  · simp [Function.comp, h]

theorem wins_get_by_num_mem (ws : Wins) (k : Nat) (w : ProfWin)
    (h : wins_get_by_num ws k = some w) : k ∈ ws.windows.map Prod.fst := by
  unfold wins_get_by_num at h
  cases hf : ws.windows.find? (fun p => p.1 == k) with
  | none => rw [hf] at h; cases h
  | some e =>
      have hmem := List.mem_of_find?_eq_some hf
      have hpred := List.find?_some hf
      have : e.1 = k := by simpa using hpred
      subst this
      exact List.mem_map.mpr ⟨e, hmem, rfl⟩

theorem wins_next_available_num_spec (ws : Wins) :
    2 ≤ wins_next_available_num ws ∧
      wins_next_available_num ws ∉ ws.windows.map Prod.fst :=
  Nat.find_spec (exists_free_slot (ws.windows.map Prod.fst))

theorem find_none_of_not_mem (l : List (Nat × ProfWin)) (m : Nat)
    (h : m ∉ l.map Prod.fst) : l.find? (fun p => p.1 == m) = none := by
  induction l with
  | nil => rfl
  | cons a t ih =>
      simp only [List.map_cons, List.mem_cons] at h
      push_neg at h
      simp only [List.find?_cons, show (a.1 == m) = false by simp [Ne.symm h.1],
        cond_false]
      exact ih h.2

theorem wins_get_by_num_append_fresh (l : List (Nat × ProfWin)) (c : Nat)
    (n : Nat) (w : ProfWin) (h : n ∉ l.map Prod.fst) :
    wins_get_by_num { windows := l ++ [(n, w)], current := c } n = some w := by
  unfold wins_get_by_num
  rw [List.find?_append, find_none_of_not_mem l n h]
  simp

theorem map_update_append_fresh (l : List (Nat × ProfWin)) (n : Nat) (w : ProfWin)
    (f : ProfWin → ProfWin) (h : n ∉ l.map Prod.fst) :
    (l ++ [(n, w)]).map (fun p => if p.1 == n then (p.1, f p.2) else p) =
      l ++ [(n, f w)] := by
  rw [List.map_append]
  congr 1
  · rw [show l = List.map id l by simp]
    rw [List.map_map]
    apply List.map_congr_left
    intro p hp
    have : p.1 ≠ n := by
      intro he
      exact h (List.mem_map.mpr ⟨p, by simpa using hp, he⟩)
    simp [this]
  · simp

theorem wins_get_chat_append (l : List (Nat × ProfWin)) (cur n : Nat) (c : ProfChatWin)
    (hnone : l.filterMap (chat_sel c.barejid) = []) :
    wins_get_chat { windows := l ++ [(n, ProfWin.WIN_CHAT c)], current := cur }
      c.barejid = some (n, c) := by
  unfold wins_get_chat
  rw [List.filterMap_append, hnone]
  simp [chat_sel]

theorem muc_sel_fst (jid : String) (p : Nat × ProfWin) (q : Nat × ProfMucWin)
    (h : muc_sel jid p = some q) : q.1 = p.1 := by
  obtain ⟨pn, pw⟩ := p
  cases pw
  case WIN_MUC m =>
    simp only [muc_sel] at h
    by_cases hj : (m.roomjid == jid) = true
    · rw [if_pos hj] at h
      cases h
      rfl
    · rw [if_neg hj] at h
      cases h
  all_goals simp [muc_sel] at h

theorem muc_sel_clear (jid : String) (n : Nat) (w : ProfWin) :
    muc_sel jid (n, win_clear_unread w) =
      (muc_sel jid (n, w)).map (fun q => (q.1, { q.2 with unread := 0 })) := by
  cases w
  case WIN_MUC m =>
    by_cases hj : (m.roomjid == jid) = true <;>
      simp [muc_sel, win_clear_unread, hj]
  all_goals rfl

theorem filterMap_muc_map_clear (l : List (Nat × ProfWin)) (k : Nat) (jid : String) :
    (l.map (fun p => if p.1 == k then (p.1, win_clear_unread p.2) else p)).filterMap
        (muc_sel jid) =
      (l.filterMap (muc_sel jid)).map
        (fun q => if q.1 == k then (q.1, { q.2 with unread := 0 }) else q) := by
  induction l with
  | nil => rfl
  | cons p t ih =>
      obtain ⟨pn, pw⟩ := p
      simp only [List.map_cons, List.filterMap_cons]
      cases hk : ((pn, pw).1 == k)
      · simp only [Bool.false_eq_true, if_false]
        cases hsel : muc_sel jid (pn, pw) with
        | none => exact ih
        | some q =>
            have hq : (q.1 == k) = false := by
              rw [muc_sel_fst jid _ q hsel]
              exact hk
            simp only [List.map_cons, hq, Bool.false_eq_true, if_false, ih]
      · rw [if_pos rfl, muc_sel_clear]
        cases hsel : muc_sel jid (pn, pw) with
        | none => simpa using ih
        | some q =>
            have hq : (q.1 == k) = true := by
              rw [muc_sel_fst jid _ q hsel]
              exact hk
            simp only [Option.map_some', List.map_cons, hq, eq_self_iff_true, if_true]
            rw [ih]

theorem wins_get_muc_update_clear (ws : Wins) (k : Nat) (jid : String) :
    wins_get_muc (wins_update_at ws k win_clear_unread) jid =
      (wins_get_muc ws jid).map
        (fun q => if q.1 == k then (q.1, { q.2 with unread := 0 }) else q) := by
  unfold wins_get_muc wins_update_at
  rw [filterMap_muc_map_clear]
  cases (ws.windows.filterMap (muc_sel jid)) <;> simp

theorem filterMap_muc_append_muc (l : List (Nat × ProfWin)) (n : Nat) (m : ProfMucWin) :
    (l ++ [(n, ProfWin.WIN_MUC m)]).filterMap (muc_sel m.roomjid) =
      l.filterMap (muc_sel m.roomjid) ++ [(n, m)] := by
  rw [List.filterMap_append]
  simp [muc_sel]

theorem find_filter_slot_ne (l : List (Nat × ProfWin)) (k m : Nat) :
    (l.filter (fun p => !(p.1 == k))).find? (fun p => p.1 == m) =
      if m = k then none else l.find? (fun p => p.1 == m) := by
  induction l with
  | nil => by_cases h : m = k <;> simp [h]
  | cons p t ih =>
      simp only [List.filter_cons]
      cases hbk : (p.1 == k)
      · simp only [Bool.not_false]
        rw [if_pos True.intro]
        cases hbm : (p.1 == m)
        · rw [List.find?_cons_of_neg _ (by simp [hbm]),
            List.find?_cons_of_neg _ (by simp [hbm])] at *
          exact ih
        · have hmk : ¬(m = k) := by
            intro h
            subst h
            rw [beq_iff_eq] at hbm
            rw [hbm] at hbk
            simp at hbk
          rw [List.find?_cons_of_pos _ (by simp [hbm]), if_neg hmk,
            List.find?_cons_of_pos _ (by simp [hbm])]
      · simp only [Bool.not_true]
        rw [if_neg (by simp)]
        rw [ih]
        by_cases hmk : m = k
        · simp [hmk]
        · have hbk2 : p.1 = k := by rwa [beq_iff_eq] at hbk
          have hbm : (p.1 == m) = false :=
            beq_eq_false_iff_ne.mpr (by omega)
          rw [if_neg hmk, if_neg hmk, List.find?_cons_of_neg _ (by simp [hbm])]

theorem wins_get_by_num_close (ws : Wins) (k m : Nat) :
    wins_get_by_num (wins_close_by_num ws k) m =
      if m = k then none else wins_get_by_num ws m := by
  unfold wins_get_by_num wins_close_by_num
  simp only [find_filter_slot_ne]
  by_cases h : m = k <;> simp [h]

theorem filterMap_muc_filter_slot (l : List (Nat × ProfWin)) (k : Nat) (jid : String) :
    (l.filter (fun p => !(p.1 == k))).filterMap (muc_sel jid) =
      (l.filterMap (muc_sel jid)).filter (fun q => !(q.1 == k)) := by
  induction l with
  | nil => rfl
  | cons p t ih =>
      obtain ⟨pn, pw⟩ := p
      simp only [List.filter_cons]
      cases hbk : ((pn, pw).1 == k)
      · simp only [Bool.not_false]
        rw [if_pos True.intro]
        simp only [List.filterMap_cons]
        cases hsel : muc_sel jid (pn, pw) with
        | none => exact ih
        | some q =>
            have hq : (q.1 == k) = false := by
              rw [muc_sel_fst jid _ q hsel]
              exact hbk
            simp only [List.filter_cons, hq, Bool.not_false]
            rw [ih, if_pos True.intro]
      · simp only [Bool.not_true]
        rw [if_neg (by simp)]
        simp only [List.filterMap_cons]
        cases hsel : muc_sel jid (pn, pw) with
        | none => exact ih
        | some q =>
            have hq : (q.1 == k) = true := by
              rw [muc_sel_fst jid _ q hsel]
              exact hbk
            simp only [List.filter_cons, hq, Bool.not_true]
            rw [ih, if_neg (by simp)]

theorem wins_get_muc_close_ne (ws : Wins) (k : Nat) (jid : String)
    (q : Nat × ProfMucWin) (h : wins_get_muc ws jid = some q) (hne : q.1 ≠ k) :
    wins_get_muc (wins_close_by_num ws k) jid = some q := by
  unfold wins_get_muc wins_close_by_num at *
  rw [filterMap_muc_filter_slot]
  cases hl : (ws.windows.filterMap (muc_sel jid)) with
  | nil => rw [hl] at h; cases h
  | cons a rest =>
      rw [hl] at h
      simp only [List.head?_cons, Option.some_inj] at h
      subst h
      simp [List.filter_cons, hne]

theorem muc_get_muc_update (rooms : List MucRoom) (jid jid2 : String)
    (f : MucRoom → MucRoom) (hf : ∀ r, (f r).roomjid = r.roomjid) :
    muc_get (muc_update rooms jid f) jid2 =
      if jid2 = jid then (muc_get rooms jid).map f else muc_get rooms jid2 := by
  unfold muc_get muc_update
  induction rooms with
  | nil => by_cases h : jid2 = jid <;> simp [h]
  | cons r t ih =>
      simp only [List.map_cons, List.find?_cons]
      cases hbj : (r.roomjid == jid) <;> cases hb2 : (r.roomjid == jid2)
      · simp only [cond_false]
        rw [ih]
        by_cases hj : jid2 = jid <;> simp [hj, List.find?_cons, hb2, hbj]
      · have hj : ¬(jid2 = jid) := by
          intro h
          subst h
          rw [beq_iff_eq] at hb2
          rw [hb2] at hbj
          simp at hbj
        simp [hj, List.find?_cons, hb2, hbj]
      · have hj : ¬(jid2 = jid) := by
          intro h
          subst h
          rw [beq_iff_eq] at hbj
          rw [hbj] at hb2
          simp at hb2
        simp only [cond_true, cond_false, hb2]
        rw [ih]
        simp [hj, List.find?_cons, hb2, hbj, hf r]
      · have hj : jid2 = jid := by
          rw [beq_iff_eq] at hbj hb2
          rw [hbj] at hb2
          exact hb2.symm
        simp [hj, List.find?_cons, hbj, hb2, hf r]

/-! ### C1 — unread counters on inbound delivery -/

/-- C1: for every inbound one-to-one chat, private, or room message, if the
target window is the current (focused) window, delivery leaves that window's
unread counter unchanged; if it is not current, delivery increments the
counter by exactly one. -/
theorem C1_inbound_unread :
    (∀ (ext : Ext) (s : AppState) (num : Nat) (resource : Option String)
       (message : String) (timestamp : Option Nat) (win_created : Bool)
       (c : ProfChatWin),
       wins_get_by_num s.wins num = some (ProfWin.WIN_CHAT c) →
       unread_at (ui_incoming_msg ext s num resource message timestamp win_created).1 num =
         (if wins_is_current s.wins num then c.unread else c.unread + 1)) ∧
    (∀ (ext : Ext) (s : AppState) (fulljid message : String) (num : Nat)
       (p : ProfPrivateWin),
       wins_get_private s.wins fulljid = some (num, p) →
       wins_get_by_num s.wins num = some (ProfWin.WIN_PRIVATE p) →
       unread_at (ui_incoming_private_msg ext s fulljid message).1 num =
         (if wins_is_current s.wins num then p.unread else p.unread + 1)) ∧
    (∀ (s : AppState) (roomjid nick message : String) (num : Nat) (m : ProfMucWin),
       wins_get_muc s.wins roomjid = some (num, m) →
       wins_get_by_num s.wins num = some (ProfWin.WIN_MUC m) →
       unread_at (ui_room_message s roomjid nick message).1 num =
         (if wins_is_current s.wins num then m.unread else m.unread + 1)) := by
  refine ⟨?_, ?_, ?_⟩
  · intro ext s num resource message timestamp win_created c h
    unfold ui_incoming_msg
    rw [h]
    by_cases hcur : wins_is_current s.wins num = true
    · simp only [hcur, if_true]
      simp [unread_at, h]
    · simp only [hcur, if_false]
      by_cases hch : (s.prefs.chlog && s.prefs.history) = true
      · simp only [hch, if_true]
        unfold win_show_history
        by_cases hh : c.history_shown = true
        · simp [hh, unread_at, wins_get_by_num_update_at, h, win_bump_unread]
        · have hh2 : c.history_shown = false := by
            cases hc : c.history_shown
            · rfl
            · exact absurd hc hh
          simp [hh2, unread_at, wins_get_by_num_update_at, h, win_bump_unread]
      · simp only [hch, if_false]
        simp [unread_at, wins_get_by_num_update_at, h, win_bump_unread]
  · intro ext s fulljid message num p hp h
    unfold ui_incoming_private_msg
    rw [hp]
    by_cases hcur : wins_is_current s.wins num = true
    · simp only [hcur, if_true]
      simp [unread_at, h]
    · simp only [hcur, if_false]
      simp [unread_at, wins_get_by_num_update_at, h, win_bump_unread]
  · intro s roomjid nick message num m hm h
    unfold ui_room_message
    rw [hm]
    by_cases hcur : wins_is_current s.wins num = true
    · by_cases hself : (nick == muc_nick s.rooms roomjid) = true <;>
        simp [hcur, hself, unread_at, h]
    · by_cases hself : (nick == muc_nick s.rooms roomjid) = true <;>
        simp [hcur, hself, unread_at, wins_get_by_num_update_at, h, win_bump_unread]

/-- Witness for C1 at the sample state: delivery of a chat message to the
unfocused chat window at slot 2 raises its unread counter from 0 to 1; a
private message to the unfocused private window at slot 4 likewise; a room
message to the unfocused room window at slot 3 likewise. -/
theorem C1_inbound_unread_witness :
    unread_at (ui_incoming_msg sampleExt sampleState 2 Option.none "hi"
        Option.none false).1 2 = 1 ∧
    unread_at (ui_incoming_private_msg sampleExt sampleState "r@conf/bob" "hi").1 4 = 1 ∧
    unread_at (ui_room_message sampleState "r@conf" "carol" "hi").1 3 = 1 := by
  refine ⟨?_, ?_, ?_⟩
  · have h := C1_inbound_unread.1 sampleExt sampleState 2 Option.none "hi"
      Option.none false sampleChat (by decide)
    rw [h]
    decide
  · have h := C1_inbound_unread.2.1 sampleExt sampleState "r@conf/bob" "hi" 4
      { fulljid := "r@conf/bob", unread := 0 } (by decide) (by decide)
    rw [h]
    decide
  · have h := C1_inbound_unread.2.2 sampleState "r@conf" "carol" "hi" 3
      { roomjid := "r@conf", unread := 0 } (by decide) (by decide)
    rw [h]
    decide

/-! ### C10 — beep and desktop notification depend only on the preference
flags, not on focus -/

set_option maxHeartbeats 3200000 in
/-- C10: for every inbound one-to-one chat or private message, the audible
beep fires exactly when the beep preference is on, and the desktop
notification fires exactly when the message-notification preference is on —
in both the focused and the unfocused case alike. -/
theorem C10_beep_notify_by_preference_only :
    (∀ (ext : Ext) (s : AppState) (num : Nat) (resource : Option String)
       (message : String) (timestamp : Option Nat) (win_created : Bool)
       (c : ProfChatWin),
       wins_get_by_num s.wins num = some (ProfWin.WIN_CHAT c) →
       ((Effect.beep ∈ (ui_incoming_msg ext s num resource message timestamp
           win_created).2) ↔ s.prefs.beep = true) ∧
       ((Effect.notify_message (ext.roster_get_msg_display_name c.barejid resource)
           message ∈ (ui_incoming_msg ext s num resource message timestamp
           win_created).2) ↔ s.prefs.notify_message = true)) ∧
    (∀ (ext : Ext) (s : AppState) (fulljid message : String),
       ((Effect.beep ∈ (ui_incoming_private_msg ext s fulljid message).2) ↔
         s.prefs.beep = true) ∧
       ((Effect.notify_message (ext.get_nick_from_full_jid fulljid) message ∈
           (ui_incoming_private_msg ext s fulljid message).2) ↔
         s.prefs.notify_message = true)) := by
  constructor
  · intro ext s num resource message timestamp win_created c h
    unfold ui_incoming_msg
    rw [h]
    by_cases hcur : wins_is_current s.wins num = true <;>
      by_cases hb : s.prefs.beep = true <;>
        by_cases hn : s.prefs.notify_message = true <;>
          by_cases hch : (s.prefs.chlog && s.prefs.history) = true <;>
            cases timestamp <;>
              cases win_created <;>
                cases hrc : ext.roster_get_contact c.barejid <;>
                  by_cases hhs : c.history_shown = false <;>
                    constructor <;>
                      simp [hcur, hb, hn, hch, hrc, hhs, win_show_history,
                        wins_get_by_num_update_at, h, win_bump_unread, List.mem_append]
  · intro ext s fulljid message
    unfold ui_incoming_private_msg
    by_cases hb : s.prefs.beep = true <;>
      by_cases hn : s.prefs.notify_message = true <;>
        by_cases hf : s.prefs.flash = true <;>
          cases hp : wins_get_private s.wins fulljid <;>
            constructor <;>
              (simp only [hp]
               split <;>
                 simp [hb, hn, hf, List.mem_append, wins_new_private])

/-- Witness for C10: with the beep and notification preferences on, the
unfocused chat delivery at slot 2 beeps and notifies, and so does a private
delivery. -/
theorem C10_beep_notify_by_preference_only_witness :
    (Effect.beep ∈ (ui_incoming_msg sampleExt
        { sampleState with prefs := { samplePrefs with beep := true, notify_message := true } }
        2 Option.none "hi" Option.none false).2) ∧
    (Effect.notify_message "r@conf/bob" "hi" ∈ (ui_incoming_private_msg sampleExt
        { sampleState with prefs := { samplePrefs with beep := true, notify_message := true } }
        "r@conf/bob" "hi").2) := by
  constructor
  · exact ((C10_beep_notify_by_preference_only.1 sampleExt
      { sampleState with prefs := { samplePrefs with beep := true, notify_message := true } }
      2 Option.none "hi" Option.none false sampleChat (by decide)).1).mpr (by decide)
  · exact ((C10_beep_notify_by_preference_only.2 sampleExt
      { sampleState with prefs := { samplePrefs with beep := true, notify_message := true } }
      "r@conf/bob" "hi").2).mpr (by decide)

/-! ### C3 — cross-mode start rejections -/

/-- C3: starting ModeA (OTR) on a chat window whose mode is ModeB (PGP) is
rejected with a descriptive user-visible message and changes nothing — in
particular the mode stays ModeB and no network action is sent; symmetrically,
starting ModeB (PGP) while the mode is ModeA (OTR) is rejected with a
descriptive message and changes nothing. -/
theorem C3_cross_mode_start_rejected (ext : Ext) (s : AppState) (c : ProfChatWin)
    (hby : wins_get_by_num s.wins s.wins.current = some (ProfWin.WIN_CHAT c))
    (hconn : s.conn = JabberConn.JABBER_CONNECTED) :
    (c.enc_mode = ProfEnc.PROF_ENC_PGP →
      cmd_otr ext s ["start"] =
        (s, [Effect.current_print_line
              "You must disable PGP encryption before starting an OTR session."]) ∧
      chat_enc_mode_at (cmd_otr ext s ["start"]).1 s.wins.current =
        ProfEnc.PROF_ENC_PGP ∧
      ∀ e ∈ (cmd_otr ext s ["start"]).2, e.is_net = false) ∧
    (c.enc_mode = ProfEnc.PROF_ENC_OTR →
      cmd_pgp ext s ["start"] =
        (s, [Effect.current_print_line
              "You must end the OTR session to start PGP encryption."]) ∧
      chat_enc_mode_at (cmd_pgp ext s ["start"]).1 s.wins.current =
        ProfEnc.PROF_ENC_OTR ∧
      ∀ e ∈ (cmd_pgp ext s ["start"]).2, e.is_net = false) := by
  constructor
  · intro hmode
    have hres : cmd_otr ext s ["start"] =
        (s, [Effect.current_print_line
              "You must disable PGP encryption before starting an OTR session."]) := by
      unfold cmd_otr
      simp only [hconn, wins_get_current, hby]
      unfold cmd_otr_start_checks
      simp [hby, hmode]
    refine ⟨hres, ?_, ?_⟩
    · rw [hres]
      simp [chat_enc_mode_at, hby, hmode]
    · rw [hres]
      intro e he
      simp only [List.mem_singleton] at he
      subst he
      rfl
  · intro hmode
    have hres : cmd_pgp ext s ["start"] =
        (s, [Effect.current_print_line
              "You must end the OTR session to start PGP encryption."]) := by
      unfold cmd_pgp
      simp only [hconn, wins_get_current, hby]
      unfold cmd_pgp_start_checks
      simp [hby, hmode]
    refine ⟨hres, ?_, ?_⟩
    · rw [hres]
      simp [chat_enc_mode_at, hby, hmode]
    · rw [hres]
      intro e he
      simp only [List.mem_singleton] at he
      subst he
      rfl

/-- Witness for C3: in the sample state focused on a PGP chat window,
`/otr start` is refused and the mode stays PGP; focused on an OTR chat
window, `/pgp start` is refused and the mode stays OTR. -/
theorem C3_cross_mode_start_rejected_witness :
    cmd_otr sampleExt
      { sampleState with wins :=
          { windows := [(1, ProfWin.WIN_CONSOLE),
              (2, ProfWin.WIN_CHAT { sampleChat with enc_mode := ProfEnc.PROF_ENC_PGP })],
            current := 2 } } ["start"] =
      ({ sampleState with wins :=
          { windows := [(1, ProfWin.WIN_CONSOLE),
              (2, ProfWin.WIN_CHAT { sampleChat with enc_mode := ProfEnc.PROF_ENC_PGP })],
            current := 2 } },
       [Effect.current_print_line
         "You must disable PGP encryption before starting an OTR session."]) ∧
    cmd_pgp sampleExt
      { sampleState with wins :=
          { windows := [(1, ProfWin.WIN_CONSOLE),
              (2, ProfWin.WIN_CHAT { sampleChat with enc_mode := ProfEnc.PROF_ENC_OTR })],
            current := 2 } } ["start"] =
      ({ sampleState with wins :=
          { windows := [(1, ProfWin.WIN_CONSOLE),
              (2, ProfWin.WIN_CHAT { sampleChat with enc_mode := ProfEnc.PROF_ENC_OTR })],
            current := 2 } },
       [Effect.current_print_line
         "You must end the OTR session to start PGP encryption."]) := by
  constructor
  · exact ((C3_cross_mode_start_rejected sampleExt _
      { sampleChat with enc_mode := ProfEnc.PROF_ENC_PGP }
      (by decide) rfl).1 rfl).1
  · exact ((C3_cross_mode_start_rejected sampleExt _
      { sampleChat with enc_mode := ProfEnc.PROF_ENC_OTR }
      (by decide) rfl).2 rfl).1

/-! ### C2 — encryption-mode transitions of the inbound dispatcher -/

theorem ui_incoming_msg_chat_preserved (ext : Ext) (s : AppState) (num : Nat)
    (resource : Option String) (message : String) (timestamp : Option Nat)
    (win_created : Bool) (c : ProfChatWin)
    (h : wins_get_by_num s.wins num = some (ProfWin.WIN_CHAT c)) :
    ∃ c' : ProfChatWin,
      wins_get_by_num (ui_incoming_msg ext s num resource message timestamp
          win_created).1.wins num = some (ProfWin.WIN_CHAT c') ∧
      c'.enc_mode = c.enc_mode ∧ c'.barejid = c.barejid := by
  unfold ui_incoming_msg
  rw [h]
  by_cases hcur : wins_is_current s.wins num = true
  · exact ⟨c, by simp [hcur, h], rfl, rfl⟩
  · by_cases hch : (s.prefs.chlog && s.prefs.history) = true
    · unfold win_show_history
      by_cases hh : c.history_shown = true
      · refine ⟨{ c with unread := c.unread + 1 }, ?_, rfl, rfl⟩
        simp [hcur, hch, hh, wins_get_by_num_update_at, h, win_bump_unread]
      · have hh2 : c.history_shown = false := by
          cases hc2 : c.history_shown
          · rfl
          · exact absurd hc2 hh
        refine ⟨{ c with unread := c.unread + 1, history_shown := true }, ?_, rfl, rfl⟩
        simp [hcur, hch, hh2, wins_get_by_num_update_at, h, win_bump_unread]
    · refine ⟨{ c with unread := c.unread + 1 }, ?_, rfl, rfl⟩
      simp [hcur, hch, wins_get_by_num_update_at, h, win_bump_unread]

theorem chat_enc_mode_at_set (s : AppState) (num : Nat) (m : ProfEnc)
    (c : ProfChatWin)
    (h : wins_get_by_num s.wins num = some (ProfWin.WIN_CHAT c)) :
    chat_enc_mode_at (set_chat_enc_mode s num m) num = m := by
  unfold chat_enc_mode_at set_chat_enc_mode
  simp [wins_get_by_num_update_at, h]

/-- C2 counterexample: the claim says no inbound-message handler changes the
per-window encryption mode, but `sv_ev_incoming_message` does: at the sample
state, a decryptable PGP payload for `alice@ex.org` moves the chat window at
slot 2 from None to ModeB (PGP) with no start-session action involved. -/
theorem C2_counterexample_inbound_changes_mode :
    chat_enc_mode_at sampleState 2 = ProfEnc.PROF_ENC_NONE ∧
    chat_enc_mode_at (sv_ev_incoming_message sampleExt sampleState "alice@ex.org"
        Option.none "m" (some "blob")).1 2 = ProfEnc.PROF_ENC_PGP := by
  constructor
  · rfl
  · rfl

/-- C2 amended: the per-Chat-window encryption mode is changed outside the
explicit start/end actions in exactly one place, the inbound-message
dispatcher, and there exactly as follows: a ModeB-encrypted payload leaves
ModeA untouched, sets ModeB when it decrypts and resets to None when it does
not; a plaintext message resets ModeB to None and otherwise leaves the mode
unchanged. -/
theorem C2_amended_inbound_enc_transitions (ext : Ext) (s : AppState)
    (barejid : String) (resource : Option String) (message : String)
    (enc_message : Option String) (num : Nat) (c : ProfChatWin)
    (hc : wins_get_chat s.wins barejid = some (num, c))
    (hby : wins_get_by_num s.wins num = some (ProfWin.WIN_CHAT c)) :
    chat_enc_mode_at (sv_ev_incoming_message ext s barejid resource message
        enc_message).1 num =
      (match enc_message with
       | some encm =>
           if c.enc_mode = ProfEnc.PROF_ENC_OTR then ProfEnc.PROF_ENC_OTR
           else
             match ext.p_gpg_decrypt encm with
             | some _ => ProfEnc.PROF_ENC_PGP
             | none => ProfEnc.PROF_ENC_NONE
       | none =>
           if c.enc_mode = ProfEnc.PROF_ENC_PGP then ProfEnc.PROF_ENC_NONE
           else c.enc_mode) := by
  unfold sv_ev_incoming_message
  rw [hc]
  have hmode : chat_enc_mode_at s num = c.enc_mode := by
    unfold chat_enc_mode_at
    rw [hby]
  cases enc_message with
  | some encm =>
      by_cases hotr : c.enc_mode = ProfEnc.PROF_ENC_OTR
      · simp only [hmode, hotr]
        simp [chat_enc_mode_at, hby, hotr]
      · have hbotr : (chat_enc_mode_at s num == ProfEnc.PROF_ENC_OTR) = false := by
          rw [hmode]
          simpa using hotr
        simp only [hbotr, Bool.false_eq_true, if_false]
        cases hdec : ext.p_gpg_decrypt encm with
        | some decrypted =>
            obtain ⟨c', hc', _, _⟩ := ui_incoming_msg_chat_preserved ext s num
              resource decrypted Option.none false c hby
            simp only [hdec]
            rw [chat_enc_mode_at_set _ num _ c' hc']
            simp [hotr]
        | none =>
            obtain ⟨c', hc', _, _⟩ := ui_incoming_msg_chat_preserved ext s num
              resource message Option.none false c hby
            simp only [hdec]
            rw [chat_enc_mode_at_set _ num _ c' hc']
            simp [hotr]
  | none =>
      by_cases hpgp : c.enc_mode = ProfEnc.PROF_ENC_PGP
      · have hbp : (chat_enc_mode_at s num == ProfEnc.PROF_ENC_PGP) = true := by
          rw [hmode, hpgp]
          decide
        simp only [hbp, if_true]
        obtain ⟨c', hc', _, _⟩ := ui_incoming_msg_chat_preserved ext s num
          resource message Option.none false c hby
        rw [chat_enc_mode_at_set _ num _ c' hc']
        simp [hpgp]
      · have hbp : (chat_enc_mode_at s num == ProfEnc.PROF_ENC_PGP) = false := by
          rw [hmode]
          simpa using hpgp
        simp only [hbp, Bool.false_eq_true, if_false]
        cases hres : ext.otr_on_message_recv barejid resource message with
        | some r =>
            obtain ⟨c', hc', henc, _⟩ := ui_incoming_msg_chat_preserved ext s num
              resource r.1 Option.none false c hby
            simp only [hres]
            simp [chat_enc_mode_at, hc', henc, hpgp]
        | none =>
            simp only [hres]
            simp [chat_enc_mode_at, hby, hpgp]

/-- Witness for C2's amended theorem: a plaintext message while the sample
chat window is in ModeB resets the mode to None. -/
theorem C2_amended_inbound_enc_transitions_witness :
    chat_enc_mode_at (sv_ev_incoming_message sampleExt
        { sampleState with wins :=
            { windows := [(1, ProfWin.WIN_CONSOLE),
                (2, ProfWin.WIN_CHAT { sampleChat with enc_mode := ProfEnc.PROF_ENC_PGP })],
              current := 1 } }
        "alice@ex.org" Option.none "m" Option.none).1 2 = ProfEnc.PROF_ENC_NONE := by
  rw [C2_amended_inbound_enc_transitions sampleExt _ "alice@ex.org" Option.none "m"
    Option.none 2 { sampleChat with enc_mode := ProfEnc.PROF_ENC_PGP }
    (by decide) (by decide)]
  decide

/-! ### C7 — window swap -/

theorem wins_get_by_num_swap_map (ws : Wins) (a b : Nat) (wa wb : ProfWin) (k : Nat) :
    wins_get_by_num { ws with windows := ws.windows.map (fun p =>
        if p.1 == a then (p.1, wb) else if p.1 == b then (p.1, wa) else p) } k =
      (wins_get_by_num ws k).map
        (fun w => if k = a then wb else if k = b then wa else w) := by
  unfold wins_get_by_num
  rw [find_map_fst_preserving _ _ _
    (by
      intro p
      split
      · rfl
      · split <;> rfl)]
  cases hf : ws.windows.find? (fun p => p.1 == k) with
  | none => rfl
  | some e =>
      have he : e.1 = k := by simpa using List.find?_some hf
      by_cases hka : k = a <;> by_cases hkb : k = b <;>
        simp [he, hka, hkb] <;> try (split <;> simp_all)

/-- C7 counterexample: slot 7 of the sample state is empty, yet `/wins swap
7 7` answers «Same source and target window supplied.» rather than reporting a
nonexistent window, contradicting the claim that every pair with an empty slot
is reported as not found (the equal-slots guard fires before any occupancy
check). -/
theorem C7_counterexample_swap_same_empty :
    wins_get_by_num sampleState.wins 7 = none ∧
    cmd_wins sampleExt sampleState ["swap", "7", "7"] =
      (sampleState, [Effect.cons_show "Same source and target window supplied."]) :=
  ⟨rfl, rfl⟩

/-- C7 (amended): `/wins swap a b` — a pair naming the console slot is refused
outright; otherwise a pair naming slot 10 is refused with «Window 10 does not
exist» regardless of occupancy; equal source and target are answered «Same
source and target window supplied.» regardless of occupancy; for distinct
non-console, non-10 slots, if either slot is empty the registry is unchanged
and the command reports that the (source) window does not exist, and when both
slots are open exactly the two slots' window objects are exchanged. -/
theorem C7_amended_swap (ext : Ext) (s : AppState) (a1 a2 : String) (na nb : Nat)
    (ha1 : atoi a1 = (na : Int)) (ha2 : atoi a2 = (nb : Int)) :
    ((na = 1 ∨ nb = 1) →
      cmd_wins ext s ["swap", a1, a2] =
        (s, [Effect.cons_show "Cannot move console window."])) ∧
    (na ≠ 1 → nb ≠ 1 → (na = 10 ∨ nb = 10) →
      cmd_wins ext s ["swap", a1, a2] =
        (s, [Effect.cons_show "Window 10 does not exist"])) ∧
    (na ≠ 1 → na ≠ 10 → na = nb →
      cmd_wins ext s ["swap", a1, a2] =
        (s, [Effect.cons_show "Same source and target window supplied."])) ∧
    (na ≠ 1 → nb ≠ 1 → na ≠ 10 → nb ≠ 10 → na ≠ nb →
      wins_get_by_num s.wins na = none →
      cmd_wins ext s ["swap", a1, a2] =
        (s, [Effect.cons_show ("Window " ++ toString ((na : Int)) ++
          " does not exist")])) ∧
    (na ≠ 1 → nb ≠ 1 → na ≠ 10 → nb ≠ 10 → na ≠ nb →
      wins_get_by_num s.wins nb = none →
      cmd_wins ext s ["swap", a1, a2] =
        (s, [Effect.cons_show ("Window " ++ toString ((na : Int)) ++
          " does not exist")])) ∧
    (∀ (wa wb : ProfWin), na ≠ 1 → nb ≠ 1 → na ≠ 10 → nb ≠ 10 → na ≠ nb →
      wins_get_by_num s.wins na = some wa →
      wins_get_by_num s.wins nb = some wb →
      (cmd_wins ext s ["swap", a1, a2]).2 =
        [Effect.cons_show ("Swapped windows " ++ toString ((na : Int)) ++
          " <-> " ++ toString ((nb : Int)))] ∧
      (cmd_wins ext s ["swap", a1, a2]).1.wins.current = s.wins.current ∧
      wins_get_by_num (cmd_wins ext s ["swap", a1, a2]).1.wins na = some wb ∧
      wins_get_by_num (cmd_wins ext s ["swap", a1, a2]).1.wins nb = some wa ∧
      (∀ k, k ≠ na → k ≠ nb →
        wins_get_by_num (cmd_wins ext s ["swap", a1, a2]).1.wins k =
          wins_get_by_num s.wins k) ∧
      (cmd_wins ext s ["swap", a1, a2]).1.rooms = s.rooms) := by
  refine ⟨?_, ?_, ?_, ?_, ?_, ?_⟩
  · intro hcons
    unfold cmd_wins
    have hb1 : ((na : Int) == 1 || (nb : Int) == 1) = true := by
      rcases hcons with h | h <;> subst h <;> simp
    simp [ha1, ha2, hb1]
  · intro h1a h1b hten
    unfold cmd_wins
    have hb1 : ((na : Int) == 1 || (nb : Int) == 1) = false := by
      simp only [Bool.or_eq_false_iff]
      constructor <;> simpa using by omega
    have hb10 : ((na : Int) == 10 || (nb : Int) == 10) = true := by
      rcases hten with h | h <;> subst h <;> simp
    simp [ha1, ha2, hb1, hb10]
  · intro h1a h10a heq
    subst heq
    unfold cmd_wins
    have hb1 : ((na : Int) == 1 || (na : Int) == 1) = false := by
      simp only [Bool.or_eq_false_iff]
      constructor <;> simpa using by omega
    have hb10 : ((na : Int) == 10 || (na : Int) == 10) = false := by
      simp only [Bool.or_eq_false_iff]
      constructor <;> simpa using by omega
    simp [ha1, ha2, hb1, hb10]
    rw [if_neg h1a, if_neg (by exact_mod_cast h10a)]
  · intro h1a h1b h10a h10b hne hna
    unfold cmd_wins
    have hb1 : ((na : Int) == 1 || (nb : Int) == 1) = false := by
      simp only [Bool.or_eq_false_iff]
      constructor <;> simpa using by omega
    have hb10 : ((na : Int) == 10 || (nb : Int) == 10) = false := by
      simp only [Bool.or_eq_false_iff]
      constructor <;> simpa using by omega
    have hbne : ((na : Int) == (nb : Int)) = false := by
      simpa using by omega
    have hswap : wins_swap s.wins na nb = (s.wins, false) := by
      unfold wins_swap
      rw [if_neg (by simpa using by omega)]
      rw [hna]
    simp [ha1, ha2, hb1, hb10, hbne, hswap]
  · intro h1a h1b h10a h10b hne hnb
    unfold cmd_wins
    have hb1 : ((na : Int) == 1 || (nb : Int) == 1) = false := by
      simp only [Bool.or_eq_false_iff]
      constructor <;> simpa using by omega
    have hb10 : ((na : Int) == 10 || (nb : Int) == 10) = false := by
      simp only [Bool.or_eq_false_iff]
      constructor <;> simpa using by omega
    have hbne : ((na : Int) == (nb : Int)) = false := by
      simpa using by omega
    have hswap : wins_swap s.wins na nb = (s.wins, false) := by
      unfold wins_swap
      rw [if_neg (by simpa using by omega)]
      rw [hnb]
      cases wins_get_by_num s.wins na <;> rfl
    simp [ha1, ha2, hb1, hb10, hbne, hswap]
  · intro wa wb h1a h1b h10a h10b hne hna hnb
    have hb1 : ((na : Int) == 1 || (nb : Int) == 1) = false := by
      simp only [Bool.or_eq_false_iff]
      constructor <;> simpa using by omega
    have hb10 : ((na : Int) == 10 || (nb : Int) == 10) = false := by
      simp only [Bool.or_eq_false_iff]
      constructor <;> simpa using by omega
    have hbne : ((na : Int) == (nb : Int)) = false := by
      simpa using by omega
    have hswap : wins_swap s.wins na nb =
        ({ s.wins with windows := s.wins.windows.map (fun p =>
            if p.1 == na then (p.1, wb) else if p.1 == nb then (p.1, wa) else p) },
         true) := by
      unfold wins_swap
      rw [if_neg (by simpa using by omega)]
      rw [hna, hnb]
    have hres : cmd_wins ext s ["swap", a1, a2] =
        ({ s with wins := { s.wins with windows := s.wins.windows.map (fun p =>
            if p.1 == na then (p.1, wb) else if p.1 == nb then (p.1, wa) else p) } },
         [Effect.cons_show ("Swapped windows " ++ toString ((na : Int)) ++
           " <-> " ++ toString ((nb : Int)))]) := by
      unfold cmd_wins
      simp [ha1, ha2, hb1, hb10, hbne, hswap, Int.toNat_natCast]
    refine ⟨by rw [hres], by rw [hres], ?_, ?_, ?_, by rw [hres]⟩
    · rw [hres]
      rw [wins_get_by_num_swap_map s.wins na nb wa wb na]
      simp [hna]
    · rw [hres]
      rw [wins_get_by_num_swap_map s.wins na nb wa wb nb]
      simp [hnb, Ne.symm hne]
    · intro k hka hkb
      rw [hres]
      rw [wins_get_by_num_swap_map s.wins na nb wa wb k]
      cases wins_get_by_num s.wins k <;> simp [hka, hkb]

/-- Witness for C7's amended theorem at the sample state: swapping occupied
slot 2 with empty slot 7 (either direction) reports a nonexistent window and
leaves the registry unchanged, a pair naming slot 10 is refused, and swapping
slots 2 and 3 exchanges the two windows. -/
theorem C7_amended_swap_witness :
    cmd_wins sampleExt sampleState ["swap", "2", "7"] =
      (sampleState, [Effect.cons_show "Window 2 does not exist"]) ∧
    cmd_wins sampleExt sampleState ["swap", "7", "2"] =
      (sampleState, [Effect.cons_show "Window 7 does not exist"]) ∧
    cmd_wins sampleExt sampleState ["swap", "2", "10"] =
      (sampleState, [Effect.cons_show "Window 10 does not exist"]) ∧
    wins_get_by_num (cmd_wins sampleExt sampleState ["swap", "2", "3"]).1.wins 2 =
      some (ProfWin.WIN_MUC { roomjid := "r@conf", unread := 0 }) := by
  refine ⟨?_, ?_, ?_, ?_⟩
  · exact (C7_amended_swap sampleExt sampleState "2" "7" 2 7 (by decide)
      (by decide)).2.2.2.2.1
      (by decide) (by decide) (by decide) (by decide) (by decide) (by decide)
  · exact (C7_amended_swap sampleExt sampleState "7" "2" 7 2 (by decide)
      (by decide)).2.2.2.1
      (by decide) (by decide) (by decide) (by decide) (by decide) (by decide)
  · exact (C7_amended_swap sampleExt sampleState "2" "10" 2 10 (by decide)
      (by decide)).2.1 (by decide) (by decide) (Or.inr rfl)
  · exact ((C7_amended_swap sampleExt sampleState "2" "3" 2 3 (by decide)
      (by decide)).2.2.2.2.2
      (ProfWin.WIN_CHAT sampleChat) (ProfWin.WIN_MUC { roomjid := "r@conf", unread := 0 })
      (by decide) (by decide) (by decide) (by decide) (by decide)
      (by decide) (by decide)).2.2.1

/-! ### C9 — switching to the same window twice -/

theorem win_clear_unread_idem (w : ProfWin) :
    win_clear_unread (win_clear_unread w) = win_clear_unread w := by
  cases w <;> rfl

theorem ac_add_remove_add (form : DataForm) (ac : List String) :
    cmd_autocomplete_add_form_fields form
      (cmd_autocomplete_remove_form_fields form
        (cmd_autocomplete_add_form_fields form ac)) =
      cmd_autocomplete_add_form_fields form ac := by
  unfold cmd_autocomplete_add_form_fields cmd_autocomplete_remove_form_fields
  have h1 : form.tags.filter (fun t => !(form.tags.contains t)) = [] := by
    rw [List.filter_eq_nil_iff]
    intro a ha
    simp [ha]
  have h2 : (ac.filter (fun t => !(form.tags.contains t))).filter
      (fun t => !(form.tags.contains t)) =
      ac.filter (fun t => !(form.tags.contains t)) := by
    rw [List.filter_filter]
    apply List.filter_congr
    intro a _
    simp
  rw [List.filter_append, h1, h2, List.nil_append, h2]

theorem ui_switch_win_wins_eq (s : AppState) (num : Nat) :
    (ui_switch_win s num).1.wins = wins_set_current_by_num s.wins num := by
  unfold ui_switch_win
  cases hoc : wins_get_current s.wins with
  | none =>
      dsimp only
      cases hw : wins_get_by_num s.wins num with
      | none => rfl
      | some w => cases w <;> rfl
  | some ow =>
      cases ow <;> dsimp only <;>
        (cases hw : wins_get_by_num s.wins num with
         | none => rfl
         | some w => cases w <;> rfl)

theorem ui_switch_win_fields (s : AppState) (num : Nat) :
    (ui_switch_win s num).1.rooms = s.rooms ∧
    (ui_switch_win s num).1.muc_invites = s.muc_invites ∧
    (ui_switch_win s num).1.prefs = s.prefs ∧
    (ui_switch_win s num).1.conn = s.conn := by
  unfold ui_switch_win
  cases hoc : wins_get_current s.wins with
  | none =>
      dsimp only
      cases hw : wins_get_by_num s.wins num with
      | none => exact ⟨rfl, rfl, rfl, rfl⟩
      | some w => cases w <;> exact ⟨rfl, rfl, rfl, rfl⟩
  | some ow =>
      cases ow <;> dsimp only <;>
        (cases hw : wins_get_by_num s.wins num with
         | none => exact ⟨rfl, rfl, rfl, rfl⟩
         | some w => cases w <;> exact ⟨rfl, rfl, rfl, rfl⟩)

theorem ui_switch_win_ac_conf (s : AppState) (num : Nat) (c : ProfMucConfWin)
    (h : wins_get_by_num s.wins num = some (ProfWin.WIN_MUC_CONFIG c)) :
    ∃ Y, (ui_switch_win s num).1.ac_fields =
      cmd_autocomplete_add_form_fields c.form Y := by
  unfold ui_switch_win
  cases hoc : wins_get_current s.wins with
  | none =>
      dsimp only
      rw [h]
      exact ⟨s.ac_fields, rfl⟩
  | some ow =>
      cases ow <;> dsimp only <;> rw [h] <;> exact ⟨_, rfl⟩

theorem ui_switch_win_ac_nonconf (s : AppState) (num : Nat) (w : ProfWin)
    (h : wins_get_by_num s.wins num = some w)
    (hnc : ∀ c, w ≠ ProfWin.WIN_MUC_CONFIG c)
    (hoc : ∀ c0, wins_get_current s.wins ≠ some (ProfWin.WIN_MUC_CONFIG c0)) :
    (ui_switch_win s num).1.ac_fields = s.ac_fields := by
  unfold ui_switch_win
  cases hocv : wins_get_current s.wins with
  | none =>
      dsimp only
      rw [h]
      cases w <;> first | rfl | exact absurd rfl (hnc _)
  | some ow =>
      cases ow <;> dsimp only <;> rw [h] <;>
        first
        | exact absurd hocv (hoc _)
        | (cases w <;> first | rfl | exact absurd rfl (hnc _))

theorem ui_switch_win_ac_conf_self (u : AppState) (num : Nat) (c : ProfMucConfWin)
    (hcur : wins_get_current u.wins = some (ProfWin.WIN_MUC_CONFIG c))
    (h : wins_get_by_num u.wins num = some (ProfWin.WIN_MUC_CONFIG c)) :
    (ui_switch_win u num).1.ac_fields =
      cmd_autocomplete_add_form_fields c.form
        (cmd_autocomplete_remove_form_fields c.form u.ac_fields) := by
  unfold ui_switch_win
  rw [hcur]
  dsimp only
  rw [h]

/-- C9: switching the current window twice in a row to the same target leaves
the whole state — the registry and the registered form-field autocompleters —
exactly as switching once does; in particular a RoomConfig window's form
fields are never left deregistered by the second switch. -/
theorem C9_switch_current_idempotent (s : AppState) (num : Nat) (w : ProfWin)
    (h : wins_get_by_num s.wins num = some w) :
    (ui_switch_win (ui_switch_win s num).1 num).1 = (ui_switch_win s num).1 := by
  have hwins1 : (ui_switch_win s num).1.wins =
      { wins_update_at s.wins num win_clear_unread with current := num } := by
    rw [ui_switch_win_wins_eq]
    unfold wins_set_current_by_num
    rw [h]
  have hlook : wins_get_by_num (ui_switch_win s num).1.wins num =
      some (win_clear_unread w) := by
    rw [hwins1]
    have heq : wins_get_by_num
        { wins_update_at s.wins num win_clear_unread with current := num } num =
        wins_get_by_num (wins_update_at s.wins num win_clear_unread) num := rfl
    rw [heq, wins_get_by_num_update_at]
    simp [h]
  have hcur1 : (ui_switch_win s num).1.wins.current = num := by
    rw [hwins1]
  have hoc2 : wins_get_current (ui_switch_win s num).1.wins =
      some (win_clear_unread w) := by
    unfold wins_get_current
    rw [hcur1, hlook]
  have hwins2 : (ui_switch_win (ui_switch_win s num).1 num).1.wins =
      (ui_switch_win s num).1.wins := by
    rw [ui_switch_win_wins_eq]
    unfold wins_set_current_by_num
    rw [hlook, hwins1]
    have heq : wins_update_at
        { wins_update_at s.wins num win_clear_unread with current := num } num
          win_clear_unread =
        { wins_update_at (wins_update_at s.wins num win_clear_unread) num
            win_clear_unread with current := num } := rfl
    rw [heq, wins_update_at_clear_clear]
  have hac2 : (ui_switch_win (ui_switch_win s num).1 num).1.ac_fields =
      (ui_switch_win s num).1.ac_fields := by
    cases hwc : w with
    | WIN_MUC_CONFIG c =>
        obtain ⟨Y, hY⟩ := ui_switch_win_ac_conf s num c (by rw [← hwc]; exact h)
        have hl2 : wins_get_by_num (ui_switch_win s num).1.wins num =
            some (ProfWin.WIN_MUC_CONFIG c) := by
          rw [hlook, hwc]
          rfl
        have ho2 : wins_get_current (ui_switch_win s num).1.wins =
            some (ProfWin.WIN_MUC_CONFIG c) := by
          rw [hoc2, hwc]
          rfl
        rw [ui_switch_win_ac_conf_self _ num c ho2 hl2, hY, ac_add_remove_add]
    | WIN_CONSOLE =>
        refine ui_switch_win_ac_nonconf _ num _ hlook ?_ ?_ <;>
          subst hwc <;> intro c0 <;> simp [hoc2, win_clear_unread]
    | WIN_CHAT c =>
        refine ui_switch_win_ac_nonconf _ num _ hlook ?_ ?_ <;>
          subst hwc <;> intro c0 <;> simp [hoc2, win_clear_unread]
    | WIN_PRIVATE p =>
        refine ui_switch_win_ac_nonconf _ num _ hlook ?_ ?_ <;>
          subst hwc <;> intro c0 <;> simp [hoc2, win_clear_unread]
    | WIN_MUC m =>
        refine ui_switch_win_ac_nonconf _ num _ hlook ?_ ?_ <;>
          subst hwc <;> intro c0 <;> simp [hoc2, win_clear_unread]
    | WIN_XML =>
        refine ui_switch_win_ac_nonconf _ num _ hlook ?_ ?_ <;>
          subst hwc <;> intro c0 <;> simp [hoc2, win_clear_unread]
  obtain ⟨hrooms, hinv, hprefs, hconn⟩ := ui_switch_win_fields (ui_switch_win s num).1 num
  ext1
  · exact hwins2
  · exact hrooms
  · exact hinv
  · exact hac2
  · exact hprefs
  · exact hconn

/-- Witness for C9: switching twice to the RoomConfig window at slot 5 of the
sample state equals switching once. -/
theorem C9_switch_current_idempotent_witness :
    (ui_switch_win (ui_switch_win sampleState 5).1 5).1 = (ui_switch_win sampleState 5).1 := by
  exact C9_switch_current_idempotent sampleState 5
    (ProfWin.WIN_MUC_CONFIG { roomjid := "r@conf", form := sampleForm }) (by decide)

/-! ### C6 — closing a RoomConfig window with unsaved changes -/

theorem wins_get_muc_close_none (ws : Wins) (k : Nat) (jid : String)
    (h : wins_get_muc ws jid = none) :
    wins_get_muc (wins_close_by_num ws k) jid = none := by
  unfold wins_get_muc wins_close_by_num at *
  rw [filterMap_muc_filter_slot]
  rw [List.head?_eq_none_iff] at h
  rw [h]
  rfl

/-- C6 counterexample: the claim promises the unsaved-changes rejection for
every RoomConfig window's slot, but a RoomConfig window with a modified form
sitting at slot 10 (displayed as 0) is rejected by the numeric guard with
«No such window exists.» instead. -/
theorem C6_counterexample_slot10 :
    ui_win_has_unsaved_form sampleState10.wins 10 = true ∧
    cmd_close sampleState10 ["10"] =
      (sampleState10, [Effect.cons_show "No such window exists."]) := by
  constructor
  · rfl
  · rfl

/-- C6 amended: for every open RoomConfig window with a modified form at a
slot other than the console slot and other than slot 10 (which the numeric
guard of `/close` rejects as nonexistent), `/close` with that slot is
rejected with the unsaved-changes message and nothing changes; `/form cancel`
on that window always succeeds: it sends the protocol cancel, closes the
window, and focuses the underlying Room window when still open, else the
Console. -/
theorem C6_amended_unsaved_close_and_cancel (s : AppState) (cw : ProfMucConfWin)
    (hconn : s.conn = JabberConn.JABBER_CONNECTED) :
    (∀ (n : Nat) (a0 : String),
      wins_get_by_num s.wins n = some (ProfWin.WIN_MUC_CONFIG cw) →
      cw.form.modified = true →
      n ≠ 1 → n ≠ 10 → a0 ≠ "all" → a0 ≠ "read" →
      atoi a0 = (n : Int) →
      cmd_close s [a0] =
        (s, [Effect.current_print_line
          "You have unsaved changes, use /form submit or /form cancel"])) ∧
    (wins_get_by_num s.wins s.wins.current = some (ProfWin.WIN_MUC_CONFIG cw) →
      (Effect.net_iq_room_config_cancel cw.roomjid ∈ (cmd_form s ["cancel"]).2) ∧
      wins_get_by_num (cmd_form s ["cancel"]).1.wins s.wins.current = none ∧
      (∀ (m : Nat) (mw : ProfMucWin),
        wins_get_muc s.wins cw.roomjid = some (m, mw) →
        wins_get_by_num s.wins m = some (ProfWin.WIN_MUC mw) →
        m ≠ s.wins.current →
        (cmd_form s ["cancel"]).1.wins.current = m) ∧
      (wins_get_muc s.wins cw.roomjid = none →
        wins_get_by_num s.wins 1 = some ProfWin.WIN_CONSOLE →
        (cmd_form s ["cancel"]).1.wins.current = 1)) := by
  constructor
  · intro n a0 hby hmod hn1 hn10 hall hread hat
    unfold cmd_close
    simp only [List.get?]
    rw [if_neg (by simpa using hall), if_neg (by simpa using hread), hat]
    unfold cmd_close_index
    rw [if_neg (by simpa using by omega), if_neg (by simpa using by omega)]
    have htn : ((n : Int)).toNat = n := Int.toNat_natCast n
    have hform : ui_win_has_unsaved_form s.wins n = true := by
      unfold ui_win_has_unsaved_form
      rw [hby]
      exact hmod
    rw [htn]
    dsimp only
    rw [hby, if_pos hform]
  · intro hby
    have hres : ∀ X : AppState × List Effect,
        (cmd_form s ["cancel"]) =
          (let s1 := { s with ac_fields :=
              cmd_autocomplete_remove_form_fields cw.form s.ac_fields }
           let s2 := { s1 with wins := wins_close_by_num s1.wins s1.wins.current }
           let fstep :=
             match wins_get_muc s2.wins cw.roomjid with
             | some q => ui_ev_focus_win s2 q.1
             | none => ui_ev_focus_win s2 1
           (fstep.1, [Effect.net_iq_room_config_cancel cw.roomjid] ++ fstep.2)) := by
      intro _
      unfold cmd_form
      rw [if_neg (by simp [hconn])]
      unfold wins_get_current
      rw [hby]
      simp only [List.get?]
      simp
    have hres2 := hres (s, [])
    refine ⟨?_, ?_, ?_, ?_⟩
    · rw [hres2]
      cases wins_get_muc
          (wins_close_by_num s.wins s.wins.current) cw.roomjid <;> simp
    · rw [hres2]
      dsimp only
      cases hmu : wins_get_muc
          (wins_close_by_num s.wins s.wins.current) cw.roomjid with
      | some q =>
          unfold ui_ev_focus_win
          rw [ui_switch_win_wins_eq]
          unfold wins_set_current_by_num
          cases hq : wins_get_by_num (wins_close_by_num s.wins s.wins.current) q.1 with
          | none => simp [wins_get_by_num_close]
          | some wq =>
              have : wins_get_by_num
                  { wins_update_at (wins_close_by_num s.wins s.wins.current) q.1
                      win_clear_unread with current := q.1 } s.wins.current =
                  wins_get_by_num
                    (wins_update_at (wins_close_by_num s.wins s.wins.current) q.1
                      win_clear_unread) s.wins.current := rfl
              rw [this, wins_get_by_num_update_at]
              by_cases hqc : s.wins.current = q.1
              · rw [if_pos hqc]
                rw [← hqc] at hq
                rw [wins_get_by_num_close, if_pos rfl] at hq
                cases hq
              · rw [if_neg hqc, wins_get_by_num_close, if_pos rfl]
      | none =>
          unfold ui_ev_focus_win
          rw [ui_switch_win_wins_eq]
          unfold wins_set_current_by_num
          cases hq : wins_get_by_num (wins_close_by_num s.wins s.wins.current) 1 with
          | none => simp [wins_get_by_num_close]
          | some wq =>
              have : wins_get_by_num
                  { wins_update_at (wins_close_by_num s.wins s.wins.current) 1
                      win_clear_unread with current := 1 } s.wins.current =
                  wins_get_by_num
                    (wins_update_at (wins_close_by_num s.wins s.wins.current) 1
                      win_clear_unread) s.wins.current := rfl
              rw [this, wins_get_by_num_update_at]
              by_cases hqc : s.wins.current = 1
              · rw [if_pos hqc]
                rw [← hqc] at hq
                rw [wins_get_by_num_close, if_pos rfl] at hq
                cases hq
              · rw [if_neg hqc, wins_get_by_num_close, if_pos rfl]
    · intro m mw hm hbym hne
      rw [hres2]
      dsimp only
      have hmu : wins_get_muc (wins_close_by_num s.wins s.wins.current) cw.roomjid =
          some (m, mw) :=
        wins_get_muc_close_ne s.wins s.wins.current cw.roomjid (m, mw) hm hne
      rw [hmu]
      unfold ui_ev_focus_win
      rw [ui_switch_win_wins_eq]
      unfold wins_set_current_by_num
      have hlm : wins_get_by_num (wins_close_by_num s.wins s.wins.current) m =
          some (ProfWin.WIN_MUC mw) := by
        rw [wins_get_by_num_close, if_neg hne]
        exact hbym
      rw [hlm]
    · intro hnone h1
      rw [hres2]
      dsimp only
      have hmu : wins_get_muc (wins_close_by_num s.wins s.wins.current) cw.roomjid =
          none :=
        wins_get_muc_close_none s.wins s.wins.current cw.roomjid hnone
      rw [hmu]
      unfold ui_ev_focus_win
      rw [ui_switch_win_wins_eq]
      unfold wins_set_current_by_num
      have hc1 : s.wins.current ≠ 1 := by
        intro he
        rw [he, h1] at hby
        cases hby
      have hl1 : wins_get_by_num (wins_close_by_num s.wins s.wins.current) 1 =
          some ProfWin.WIN_CONSOLE := by
        rw [wins_get_by_num_close, if_neg (Ne.symm hc1)]
        exact h1
      rw [hl1]

/-- Witness for C6's amended theorem: at the sample state, `/close 5` against
the modified RoomConfig window at slot 5 is rejected with the unsaved-changes
line; `/form cancel` with slot 5 focused sends the cancel and re-focuses the
room window at slot 3. -/
theorem C6_amended_unsaved_close_and_cancel_witness :
    cmd_close sampleState ["5"] =
      (sampleState, [Effect.current_print_line
        "You have unsaved changes, use /form submit or /form cancel"]) ∧
    (cmd_form { sampleState with wins := { sampleState.wins with current := 5 } }
      ["cancel"]).1.wins.current = 3 := by
  constructor
  · exact (C6_amended_unsaved_close_and_cancel sampleState
      { roomjid := "r@conf", form := sampleForm } rfl).1 5 "5"
      (by decide) (by decide) (by decide) (by decide) (by decide) (by decide) (by decide)
  · exact ((C6_amended_unsaved_close_and_cancel
      { sampleState with wins := { sampleState.wins with current := 5 } }
      { roomjid := "r@conf", form := sampleForm } rfl).2 (by decide)).2.2.1 3
      { roomjid := "r@conf", unread := 0 } (by decide) (by decide) (by decide)

/-! ### Room-join completion machinery (shared by C4 and C5) -/

theorem ui_room_roster_filters (s : AppState) (room : String) :
    (ui_room_roster s room).2.filter Effect.is_flush = [] ∧
    (ui_room_roster s room).2.filter Effect.is_config_block = [] ∧
    (ui_room_roster s room).1 = s := by
  unfold ui_room_roster
  cases wins_get_muc s.wins room <;>
    exact ⟨rfl, rfl, rfl⟩

theorem flush_broadcasts_spec (s : AppState) (room : String) (num : Nat)
    (mw : ProfMucWin) (h : wins_get_muc s.wins room = some (num, mw)) :
    ∀ l : List String,
      (flush_broadcasts s room l).1 = s ∧
      (flush_broadcasts s room l).2.filter Effect.is_flush =
        l.map (Effect.room_broadcast_shown num) ∧
      (flush_broadcasts s room l).2.filter Effect.is_config_block = [] := by
  intro l
  induction l with
  | nil => exact ⟨rfl, rfl, rfl⟩
  | cons b rest ih =>
      have hstep : ui_room_broadcast s room b =
          (s, [Effect.room_broadcast_shown num b,
               if wins_is_current s.wins num then Effect.status_bar_active num
               else Effect.status_bar_new num]) := by
        unfold ui_room_broadcast
        rw [h]
      refine ⟨?_, ?_, ?_⟩
      · show (flush_broadcasts (ui_room_broadcast s room b).1 room rest).1 = s
        rw [hstep]
        exact ih.1
      · show ((ui_room_broadcast s room b).2 ++
            (flush_broadcasts (ui_room_broadcast s room b).1 room rest).2).filter
              Effect.is_flush = _
        rw [hstep]
        rw [List.filter_append]
        have h2 := ih.2.1
        rw [h2]
        cases hcur : wins_is_current s.wins num <;> simp [Effect.is_flush]
      · show ((ui_room_broadcast s room b).2 ++
            (flush_broadcasts (ui_room_broadcast s room b).1 room rest).2).filter
              Effect.is_config_block = _
        rw [hstep]
        rw [List.filter_append]
        have h2 := ih.2.2
        rw [h2]
        cases hcur : wins_is_current s.wins num <;> simp [Effect.is_config_block]

theorem ui_room_join_spec (s : AppState) (room : String) (focus : Bool) :
    ∃ (num : Nat) (mw : ProfMucWin),
      wins_get_muc (ui_room_join s room focus).1.wins room = some (num, mw) ∧
      (ui_room_join s room focus).1.rooms = s.rooms ∧
      (ui_room_join s room focus).1.prefs = s.prefs ∧
      (ui_room_join s room focus).2.filter Effect.is_flush = [] ∧
      (ui_room_join s room focus).2.filter Effect.is_config_block = [] := by
  unfold ui_room_join
  unfold ui_ev_focus_win
  cases hmu : wins_get_muc s.wins room with
  | some q =>
      cases focus with
      | false =>
          dsimp only
          exact ⟨q.1, q.2, hmu, rfl, rfl, rfl, rfl⟩
      | true =>
          dsimp only
          rw [if_pos rfl]
          have hw : (ui_switch_win s q.1).1.wins = wins_set_current_by_num s.wins q.1 :=
            ui_switch_win_wins_eq s q.1
          obtain ⟨hrooms, _, hprefs, _⟩ := ui_switch_win_fields s q.1
          refine ⟨q.1, ?_, ?_, hrooms, hprefs, ?_, ?_⟩
          · exact (if (wins_get_by_num s.wins q.1).isSome
              then { q.2 with unread := 0 } else q.2)
          · rw [hw]
            unfold wins_set_current_by_num
            cases hbq : wins_get_by_num s.wins q.1 with
            | none => simp [hmu]
            | some wq =>
                have heq : wins_get_muc
                    { wins_update_at s.wins q.1 win_clear_unread with current := q.1 }
                      room =
                    wins_get_muc (wins_update_at s.wins q.1 win_clear_unread) room := rfl
                rw [heq, wins_get_muc_update_clear, hmu]
                simp [hbq]
          · rw [List.filter_append]
            unfold ui_switch_win
            cases hoc : wins_get_current s.wins
            case some ow =>
              cases ow <;> cases hq1 : (q.1 == 1) <;>
                simp [Effect.is_flush, hq1]
            case none =>
              cases hq1 : (q.1 == 1) <;>
                simp [Effect.is_flush, hq1]
          · rw [List.filter_append]
            unfold ui_switch_win
            cases hoc : wins_get_current s.wins
            case some ow =>
              cases ow <;> cases hq1 : (q.1 == 1) <;>
                simp [Effect.is_config_block, hq1]
            case none =>
              cases hq1 : (q.1 == 1) <;>
                simp [Effect.is_config_block, hq1]
  | none =>
      have hfresh := wins_next_available_num_spec s.wins
      unfold wins_new_muc
      dsimp only
      have happ : wins_get_muc
          { windows := s.wins.windows ++
              [(wins_next_available_num s.wins,
                ProfWin.WIN_MUC { roomjid := room, unread := 0 })],
            current := s.wins.current } room = some (wins_next_available_num s.wins,
              { roomjid := room, unread := 0 }) := by
        unfold wins_get_muc at hmu ⊢
        have hap := filterMap_muc_append_muc s.wins.windows (wins_next_available_num s.wins)
          { roomjid := room, unread := 0 }
        simp only at hap
        rw [hap]
        rw [List.head?_eq_none_iff] at hmu
        rw [hmu]
        rfl
      cases focus with
      | false =>
          exact ⟨wins_next_available_num s.wins, { roomjid := room, unread := 0 },
            happ, rfl, rfl, rfl, rfl⟩
      | true =>
          rw [if_pos rfl]
          set n := wins_next_available_num s.wins with hn
          set s1 : AppState := { s with wins :=
            { windows := s.wins.windows ++
                [(n, ProfWin.WIN_MUC { roomjid := room, unread := 0 })],
              current := s.wins.current } } with hs1
          have hw : (ui_switch_win s1 n).1.wins = wins_set_current_by_num s1.wins n :=
            ui_switch_win_wins_eq s1 n
          obtain ⟨hrooms, _, hprefs, _⟩ := ui_switch_win_fields s1 n
          refine ⟨n, { roomjid := room, unread := 0 }, ?_, hrooms, hprefs, ?_, ?_⟩
          · rw [show (ui_switch_win s1 n).1.wins = wins_set_current_by_num s1.wins n
              from hw]
            unfold wins_set_current_by_num
            have hbq : wins_get_by_num s1.wins n =
                some (ProfWin.WIN_MUC { roomjid := room, unread := 0 }) :=
              wins_get_by_num_append_fresh s.wins.windows s.wins.current n _ hfresh.2
            rw [hbq]
            have heq : wins_get_muc
                { wins_update_at s1.wins n win_clear_unread with current := n } room =
                wins_get_muc (wins_update_at s1.wins n win_clear_unread) room := rfl
            rw [heq, wins_get_muc_update_clear]
            rw [show wins_get_muc s1.wins room = some (n,
              { roomjid := room, unread := 0 }) from happ]
            simp
          · rw [List.filter_append]
            unfold ui_switch_win
            cases hoc : wins_get_current s1.wins
            case some ow =>
              cases ow <;> cases hq1 : (n == 1) <;>
                simp [Effect.is_flush, hq1]
            case none =>
              cases hq1 : (n == 1) <;>
                simp [Effect.is_flush, hq1]
          · rw [List.filter_append]
            unfold ui_switch_win
            cases hoc : wins_get_current s1.wins
            case some ow =>
              cases ow <;> cases hq1 : (n == 1) <;>
                simp [Effect.is_config_block, hq1]
            case none =>
              cases hq1 : (n == 1) <;>
                simp [Effect.is_config_block, hq1]

theorem muc_get_after_presence_updates (rooms : List MucRoom) (room : String)
    (nick : String) (role affiliation : Option String) (r : MucRoom)
    (hr : muc_get rooms room = some r) :
    muc_get (muc_set_affiliation (muc_set_role (muc_roster_add rooms room nick)
        room role) room affiliation) room =
      some { r with
        roster := if r.roster.contains nick then r.roster else r.roster ++ [nick],
        role := role, affiliation := affiliation } := by
  unfold muc_set_affiliation muc_set_role muc_roster_add
  have h1 := muc_get_muc_update rooms room room
    (fun r => { r with
      roster := if r.roster.contains nick then r.roster else r.roster ++ [nick] })
    (fun _ => rfl)
  have h2 := muc_get_muc_update
    (muc_update rooms room (fun r => { r with
      roster := if r.roster.contains nick then r.roster else r.roster ++ [nick] }))
    room room (fun r => { r with role := role }) (fun _ => rfl)
  have h3 := muc_get_muc_update
    (muc_update (muc_update rooms room (fun r => { r with
      roster := if r.roster.contains nick then r.roster else r.roster ++ [nick] }))
      room (fun r => { r with role := role }))
    room room (fun r => { r with affiliation := affiliation }) (fun _ => rfl)
  rw [h3, if_pos rfl, h2, if_pos rfl, h1, if_pos rfl, hr]
  rfl

set_option maxHeartbeats 3200000 in
/-- Completion tail of a first self-join: the window registry is untouched,
the room record is marked joined (with the configuration requirement recorded
when flagged), and the flush-class effects appear in order: pending subject,
pending broadcasts, configuration prompt. -/
theorem self_online_join_tail_spec (s1 : AppState) (e1 : List Effect) (room : String)
    (cfg : Bool) (num : Nat) (mw : ProfMucWin) (r1 : MucRoom)
    (hW : wins_get_muc s1.wins room = some (num, mw))
    (hR : muc_get s1.rooms room = some r1)
    (hE : e1.filter Effect.is_flush = [])
    (hEc : e1.filter Effect.is_config_block = []) :
    (self_online_join_tail (s1, e1) room cfg).1.wins = s1.wins ∧
    muc_get (self_online_join_tail (s1, e1) room cfg).1.rooms room =
      some { r1 with roster_complete := true,
                     requires_config := if cfg then true else r1.requires_config } ∧
    (self_online_join_tail (s1, e1) room cfg).2.filter Effect.is_flush =
      (match r1.subject with
       | some subj => [Effect.room_subject_shown num none (some subj)]
       | none => []) ++
      r1.pending_broadcasts.map (Effect.room_broadcast_shown num) ++
      (if cfg then [Effect.room_requires_config_block num] else []) ∧
    (self_online_join_tail (s1, e1) room cfg).2.filter Effect.is_config_block =
      (if cfg then [Effect.room_requires_config_block num] else []) := by
  have hget3 : muc_get (muc_roster_set_complete s1.rooms room) room =
      some { r1 with roster_complete := true } := by
    unfold muc_roster_set_complete
    have h := muc_get_muc_update s1.rooms room room
      (fun r => { r with roster_complete := true }) (fun _ => rfl)
    rw [h, if_pos rfl, hR, Option.map_some']
  have hsub3 : muc_subject (muc_roster_set_complete s1.rooms room) room = r1.subject := by
    unfold muc_subject
    rw [hget3]
  have hpend3 : muc_pending_broadcasts (muc_roster_set_complete s1.rooms room) room =
      r1.pending_broadcasts := by
    unfold muc_pending_broadcasts
    rw [hget3]
  have hroster : ui_room_roster
      { s1 with muc_invites := muc_invites_remove s1.muc_invites room,
                rooms := muc_roster_set_complete s1.rooms room } room =
      ({ s1 with muc_invites := muc_invites_remove s1.muc_invites room,
                 rooms := muc_roster_set_complete s1.rooms room },
       [Effect.room_roster_shown num]) := by
    unfold ui_room_roster
    dsimp only
    rw [hW]
  have hrw : (if (!s1.prefs.occupants) = true then
        ui_room_roster
          { s1 with muc_invites := muc_invites_remove s1.muc_invites room,
                    rooms := muc_roster_set_complete s1.rooms room } room
      else ({ s1 with muc_invites := muc_invites_remove s1.muc_invites room,
                      rooms := muc_roster_set_complete s1.rooms room },
            ([] : List Effect))) =
      ({ s1 with muc_invites := muc_invites_remove s1.muc_invites room,
                 rooms := muc_roster_set_complete s1.rooms room },
       if s1.prefs.occupants then ([] : List Effect)
       else [Effect.room_roster_shown num]) := by
    cases hocc : s1.prefs.occupants
    · simpa using hroster
    · simp
  have hrF : (if s1.prefs.occupants then ([] : List Effect)
      else [Effect.room_roster_shown num]).filter Effect.is_flush = [] := by
    cases s1.prefs.occupants <;> rfl
  have hrC : (if s1.prefs.occupants then ([] : List Effect)
      else [Effect.room_roster_shown num]).filter Effect.is_config_block = [] := by
    cases s1.prefs.occupants <;> rfl
  obtain hfb := flush_broadcasts_spec
    { s1 with muc_invites := muc_invites_remove s1.muc_invites room,
              rooms := muc_roster_set_complete s1.rooms room } room num mw hW
    r1.pending_broadcasts
  obtain ⟨hb1, hb2, hb3⟩ := hfb
  have hget7 : muc_get (muc_set_requires_config
      (muc_roster_set_complete s1.rooms room) room true) room =
      some { r1 with roster_complete := true, requires_config := true } := by
    unfold muc_set_requires_config
    have h := muc_get_muc_update (muc_roster_set_complete s1.rooms room) room room
      (fun r => { r with requires_config := true }) (fun _ => rfl)
    rw [h, if_pos rfl, hget3, Option.map_some']
  have hcstep : ui_room_requires_config
      { s1 with muc_invites := muc_invites_remove s1.muc_invites room,
                rooms := muc_set_requires_config
                  (muc_roster_set_complete s1.rooms room) room true } room =
      ({ s1 with muc_invites := muc_invites_remove s1.muc_invites room,
                 rooms := muc_set_requires_config
                   (muc_roster_set_complete s1.rooms room) room true },
       [Effect.room_requires_config_block num,
        if wins_is_current s1.wins num then Effect.status_bar_active num
        else Effect.status_bar_new num]) := by
    unfold ui_room_requires_config
    dsimp only
    rw [hW]
  have hsbF : Effect.is_flush (if wins_is_current s1.wins num then
      Effect.status_bar_active num else Effect.status_bar_new num) = false := by
    cases wins_is_current s1.wins num <;> rfl
  have hsbC : Effect.is_config_block (if wins_is_current s1.wins num then
      Effect.status_bar_active num else Effect.status_bar_new num) = false := by
    cases wins_is_current s1.wins num <;> rfl
  have hcF : ([Effect.room_requires_config_block num,
      if wins_is_current s1.wins num then Effect.status_bar_active num
      else Effect.status_bar_new num] : List Effect).filter Effect.is_flush =
      [Effect.room_requires_config_block num] := by
    cases wins_is_current s1.wins num <;> rfl
  have hcC : ([Effect.room_requires_config_block num,
      if wins_is_current s1.wins num then Effect.status_bar_active num
      else Effect.status_bar_new num] : List Effect).filter Effect.is_config_block =
      [Effect.room_requires_config_block num] := by
    cases wins_is_current s1.wins num <;> rfl
  unfold self_online_join_tail
  dsimp only
  simp only [hrw]
  simp only [hsub3]
  cases hsubj : r1.subject with
  | none =>
      try dsimp only
      simp only [hpend3, hb1]
      cases cfg with
      | false =>
          refine ⟨by first | rfl | trivial, hsubj ▸ hget3, ?_, ?_⟩
          · simp [List.filter_append, hE, hb2, hrF, Effect.is_flush]
          · simp [List.filter_append, hEc, hb3, hrC, Effect.is_config_block]
      | true =>
          rw [if_pos rfl]
          simp only [hcstep]
          refine ⟨by first | rfl | trivial, hsubj ▸ hget7, ?_, ?_⟩
          · simp [List.filter_append, hE, hb2, hrF, hcF, hsbF, Effect.is_flush]
            cases wins_is_current s1.wins num <;> rfl
          · simp [List.filter_append, hEc, hb3, hrC, hcC, hsbC, Effect.is_config_block]
            cases wins_is_current s1.wins num <;> rfl
  | some subj =>
      try dsimp only
      have hsubstep : ui_room_subject
          { s1 with muc_invites := muc_invites_remove s1.muc_invites room,
                    rooms := muc_roster_set_complete s1.rooms room } room none
            (some subj) =
          ({ s1 with muc_invites := muc_invites_remove s1.muc_invites room,
                     rooms := muc_roster_set_complete s1.rooms room },
           [Effect.room_subject_shown num none (some subj),
            Effect.status_bar_active num]) := by
        unfold ui_room_subject
        dsimp only
        rw [hW]
      simp only [hsubstep]
      simp only [hpend3, hb1]
      cases cfg with
      | false =>
          refine ⟨by first | rfl | trivial, hsubj ▸ hget3, ?_, ?_⟩
          · simp [List.filter_append, hE, hb2, hrF, Effect.is_flush]
          · simp [List.filter_append, hEc, hb3, hrC, Effect.is_config_block]
      | true =>
          rw [if_pos rfl]
          simp only [hcstep]
          refine ⟨by first | rfl | trivial, hsubj ▸ hget7, ?_, ?_⟩
          · simp [List.filter_append, hE, hb2, hrF, hcF, hsbF, Effect.is_flush]
            cases wins_is_current s1.wins num <;> rfl
          · simp [List.filter_append, hEc, hb3, hrC, hcC, hsbC, Effect.is_config_block]
            cases wins_is_current s1.wins num <;> rfl

/-- Reduction of a self-presence event to the first-join path: when the room
record exists with no pending nick change and an incomplete roster, the
handler is the join step followed by the completion tail. -/
theorem sv_ev_muc_self_online_first_join (s : AppState) (room nick : String)
    (cfg : Bool) (role affiliation : Option String) (r : MucRoom)
    (hr : muc_get s.rooms room = some r)
    (hp : r.nick_change_pending = false)
    (hcomp : r.roster_complete = false) :
    sv_ev_muc_self_online s room nick cfg role affiliation =
      self_online_join_tail
        (if muc_autojoin (muc_set_affiliation (muc_set_role
            (muc_roster_add s.rooms room nick) room role) room affiliation) room then
          ui_room_join { s with rooms := muc_set_affiliation (muc_set_role
            (muc_roster_add s.rooms room nick) room role) room affiliation } room false
         else
          ui_room_join { s with rooms := muc_set_affiliation (muc_set_role
            (muc_roster_add s.rooms room nick) room role) room affiliation } room true)
        room cfg := by
  have hC := muc_get_after_presence_updates s.rooms room nick role affiliation r hr
  have hpend : muc_nick_change_pending (muc_set_affiliation (muc_set_role
      (muc_roster_add s.rooms room nick) room role) room affiliation) room = false := by
    unfold muc_nick_change_pending
    rw [hC]
    exact hp
  have hcompl : muc_roster_complete (muc_set_affiliation (muc_set_role
      (muc_roster_add s.rooms room nick) room role) room affiliation) room = false := by
    unfold muc_roster_complete
    rw [hC]
    exact hcomp
  unfold sv_ev_muc_self_online
  dsimp only
  rw [hpend]
  simp only [Bool.false_eq_true, if_false]
  rw [hcompl]
  simp only [Bool.not_false]
  rw [if_pos True.intro]

/-- C4: the first self-presence event for a room whose roster is not yet
complete (and with no pending nick change) marks the room joined and flushes,
in this order, the pending subject (if any), then every queued broadcast
message, then the required-configuration prompt (only when flagged); any
self-presence event for the room arriving once the roster is complete emits
none of these flush-class effects. -/
theorem C4_first_join_flush_order (s : AppState) (room nick : String) (cfg : Bool)
    (role affiliation : Option String) (r : MucRoom)
    (hr : muc_get s.rooms room = some r)
    (hp : r.nick_change_pending = false)
    (hcomp : r.roster_complete = false) :
    (∃ num : Nat,
      (sv_ev_muc_self_online s room nick cfg role affiliation).2.filter
          Effect.is_flush =
        (match r.subject with
         | some subj => [Effect.room_subject_shown num none (some subj)]
         | none => []) ++
        r.pending_broadcasts.map (Effect.room_broadcast_shown num) ++
        (if cfg then [Effect.room_requires_config_block num] else []) ∧
      muc_roster_complete
        (sv_ev_muc_self_online s room nick cfg role affiliation).1.rooms room =
        true) ∧
    (∀ (t : AppState) (nick1 : String) (cfg1 : Bool)
        (role1 affiliation1 : Option String) (r1 : MucRoom),
      muc_get t.rooms room = some r1 →
      r1.roster_complete = true →
      (sv_ev_muc_self_online t room nick1 cfg1 role1 affiliation1).2.filter
        Effect.is_flush = []) := by
  constructor
  · have hC := muc_get_after_presence_updates s.rooms room nick role affiliation r hr
    rw [sv_ev_muc_self_online_first_join s room nick cfg role affiliation r hr hp hcomp]
    cases haj : muc_autojoin (muc_set_affiliation (muc_set_role (muc_roster_add s.rooms room nick) room role) room affiliation) room with
    | true =>
        rw [if_pos rfl]
        obtain ⟨num, mw, hW, hrooms, hprefs, hfl, hcb⟩ :=
          ui_room_join_spec { s with rooms := muc_set_affiliation (muc_set_role (muc_roster_add s.rooms room nick) room role) room affiliation } room false
        have hR1 : muc_get (ui_room_join { s with rooms := muc_set_affiliation (muc_set_role (muc_roster_add s.rooms room nick) room role) room affiliation } room false).1.rooms room =
            some { r with role := role, affiliation := affiliation, roster := if r.roster.contains nick then r.roster else r.roster ++ [nick] } := by
          rw [hrooms]
          exact hC
        obtain ⟨hw4, hg4, hf4, hc4⟩ := self_online_join_tail_spec
          (ui_room_join { s with rooms := muc_set_affiliation (muc_set_role (muc_roster_add s.rooms room nick) room role) room affiliation } room false).1
          (ui_room_join { s with rooms := muc_set_affiliation (muc_set_role (muc_roster_add s.rooms room nick) room role) room affiliation } room false).2 room cfg num mw
          { r with role := role, affiliation := affiliation, roster := if r.roster.contains nick then r.roster else r.roster ++ [nick] } hW hR1 hfl hcb
        refine ⟨num, ?_, ?_⟩
        · exact hf4
        · unfold muc_roster_complete
          have hgoal : muc_get (self_online_join_tail
              (ui_room_join { s with rooms := muc_set_affiliation (muc_set_role (muc_roster_add s.rooms room nick) room role) room affiliation } room false) room cfg).1.rooms room =
              some { { r with role := role, affiliation := affiliation, roster := if r.roster.contains nick then r.roster else r.roster ++ [nick] } with
                roster_complete := true,
                requires_config := if cfg then true else r.requires_config } := hg4
          rw [hgoal]
    | false =>
        simp only [Bool.false_eq_true, if_false]
        obtain ⟨num, mw, hW, hrooms, hprefs, hfl, hcb⟩ :=
          ui_room_join_spec { s with rooms := muc_set_affiliation (muc_set_role (muc_roster_add s.rooms room nick) room role) room affiliation } room true
        have hR1 : muc_get (ui_room_join { s with rooms := muc_set_affiliation (muc_set_role (muc_roster_add s.rooms room nick) room role) room affiliation } room true).1.rooms room =
            some { r with role := role, affiliation := affiliation, roster := if r.roster.contains nick then r.roster else r.roster ++ [nick] } := by
          rw [hrooms]
          exact hC
        obtain ⟨hw4, hg4, hf4, hc4⟩ := self_online_join_tail_spec
          (ui_room_join { s with rooms := muc_set_affiliation (muc_set_role (muc_roster_add s.rooms room nick) room role) room affiliation } room true).1
          (ui_room_join { s with rooms := muc_set_affiliation (muc_set_role (muc_roster_add s.rooms room nick) room role) room affiliation } room true).2 room cfg num mw
          { r with role := role, affiliation := affiliation, roster := if r.roster.contains nick then r.roster else r.roster ++ [nick] } hW hR1 hfl hcb
        refine ⟨num, ?_, ?_⟩
        · exact hf4
        · unfold muc_roster_complete
          have hgoal : muc_get (self_online_join_tail
              (ui_room_join { s with rooms := muc_set_affiliation (muc_set_role (muc_roster_add s.rooms room nick) room role) room affiliation } room true) room cfg).1.rooms room =
              some { { r with role := role, affiliation := affiliation, roster := if r.roster.contains nick then r.roster else r.roster ++ [nick] } with
                roster_complete := true,
                requires_config := if cfg then true else r.requires_config } := hg4
          rw [hgoal]
  · intro t nick1 cfg1 role1 affiliation1 r1 hr1 hcomp1
    have hC1 := muc_get_after_presence_updates t.rooms room nick1 role1 affiliation1
      r1 hr1
    unfold sv_ev_muc_self_online
    dsimp only
    cases hpend1 : r1.nick_change_pending with
    | true =>
        have hp1 : muc_nick_change_pending (muc_set_affiliation (muc_set_role (muc_roster_add t.rooms room nick1) room role1) room affiliation1) room = true := by
          unfold muc_nick_change_pending
          rw [hC1]
          exact hpend1
        rw [hp1, if_pos rfl]
        dsimp only
        rw [List.filter_append]
        have hnc : ∀ u : AppState,
            (ui_room_nick_change u room nick1).2.filter Effect.is_flush = [] := by
          intro u
          unfold ui_room_nick_change
          cases wins_get_muc u.wins room <;> rfl
        rw [hnc]
        rfl
    | false =>
        have hp1 : muc_nick_change_pending (muc_set_affiliation (muc_set_role (muc_roster_add t.rooms room nick1) room role1) room affiliation1) room = false := by
          unfold muc_nick_change_pending
          rw [hC1]
          exact hpend1
        rw [hp1]
        simp only [Bool.false_eq_true, if_false]
        have hc1 : muc_roster_complete (muc_set_affiliation (muc_set_role (muc_roster_add t.rooms room nick1) room role1) room affiliation1) room = true := by
          unfold muc_roster_complete
          rw [hC1]
          exact hcomp1
        rw [hc1]
        simp only [Bool.not_true, Bool.false_eq_true, if_false]
        rw [List.filter_append]
        cases hq : wins_get_muc t.wins room <;>
          simp [apply_ite (List.filter Effect.is_flush), Effect.is_flush]

/-- Witness for C4 at the sample state: the hypotheses hold concretely for
room r@conf, and the first self-presence flushes its subject and two queued
broadcasts with no configuration prompt, leaving the room joined. -/
theorem C4_first_join_flush_order_witness :
    muc_get sampleState.rooms "r@conf" = some sampleRoom ∧
    sampleRoom.nick_change_pending = false ∧
    sampleRoom.roster_complete = false ∧
    (∃ num : Nat,
      (sv_ev_muc_self_online sampleState "r@conf" "me" false none none).2.filter
          Effect.is_flush =
        (match sampleRoom.subject with
         | some subj => [Effect.room_subject_shown num none (some subj)]
         | none => []) ++
        sampleRoom.pending_broadcasts.map (Effect.room_broadcast_shown num) ++
        (if false then [Effect.room_requires_config_block num] else []) ∧
      muc_roster_complete
        (sv_ev_muc_self_online sampleState "r@conf" "me" false none none).1.rooms
        "r@conf" = true) :=
  ⟨rfl, rfl, rfl,
   (C4_first_join_flush_order sampleState "r@conf" "me" false none none sampleRoom
     rfl rfl rfl).1⟩

/-- C5: a self-join completing with the configuration flag prints exactly one
required-configuration block into the room window and records the requirement
on the room; /room accept against a room with the recorded requirement clears
it, confirms the instant room, prints «Room unlocked.» and leaves the window
registry untouched, while /room accept without the recorded requirement is
rejected with a message and changes nothing. -/
theorem C5_requires_config_and_room_accept (s : AppState) (room nick : String)
    (role affiliation : Option String) (r : MucRoom)
    (hr : muc_get s.rooms room = some r)
    (hp : r.nick_change_pending = false)
    (hcomp : r.roster_complete = false) :
    (∃ num : Nat,
      (sv_ev_muc_self_online s room nick true role affiliation).2.filter
          Effect.is_config_block = [Effect.room_requires_config_block num] ∧
      muc_requires_config
        (sv_ev_muc_self_online s room nick true role affiliation).1.rooms room =
        true) ∧
    (∀ (t : AppState) (mucwin : ProfMucWin),
      t.conn = JabberConn.JABBER_CONNECTED →
      wins_get_current t.wins = some (ProfWin.WIN_MUC mucwin) →
      mucwin.roomjid = room →
      muc_requires_config t.rooms room = true →
      cmd_room t ["accept"] =
        ({ t with rooms := muc_set_requires_config t.rooms room false },
         [Effect.net_iq_confirm_instant_room room,
          Effect.win_show t.wins.current "Room unlocked."]) ∧
      (cmd_room t ["accept"]).1.wins = t.wins ∧
      muc_requires_config (cmd_room t ["accept"]).1.rooms room = false) ∧
    (∀ (t : AppState) (mucwin : ProfMucWin),
      t.conn = JabberConn.JABBER_CONNECTED →
      wins_get_current t.wins = some (ProfWin.WIN_MUC mucwin) →
      mucwin.roomjid = room →
      muc_requires_config t.rooms room = false →
      cmd_room t ["accept"] =
        (t, [Effect.win_show t.wins.current
          "Current room does not require configuration."])) := by
  refine ⟨?_, ?_, ?_⟩
  · have hC := muc_get_after_presence_updates s.rooms room nick role affiliation r hr
    rw [sv_ev_muc_self_online_first_join s room nick true role affiliation r hr hp hcomp]
    cases haj : muc_autojoin (muc_set_affiliation (muc_set_role (muc_roster_add s.rooms room nick) room role) room affiliation) room with
    | true =>
        rw [if_pos rfl]
        obtain ⟨num, mw, hW, hrooms, hprefs, hfl, hcb⟩ :=
          ui_room_join_spec { s with rooms := muc_set_affiliation (muc_set_role (muc_roster_add s.rooms room nick) room role) room affiliation } room false
        have hR1 : muc_get (ui_room_join { s with rooms := muc_set_affiliation (muc_set_role (muc_roster_add s.rooms room nick) room role) room affiliation } room false).1.rooms room =
            some { r with role := role, affiliation := affiliation, roster := if r.roster.contains nick then r.roster else r.roster ++ [nick] } := by
          rw [hrooms]
          exact hC
        obtain ⟨hw4, hg4, hf4, hc4⟩ := self_online_join_tail_spec
          (ui_room_join { s with rooms := muc_set_affiliation (muc_set_role (muc_roster_add s.rooms room nick) room role) room affiliation } room false).1
          (ui_room_join { s with rooms := muc_set_affiliation (muc_set_role (muc_roster_add s.rooms room nick) room role) room affiliation } room false).2 room true num mw
          { r with role := role, affiliation := affiliation, roster := if r.roster.contains nick then r.roster else r.roster ++ [nick] } hW hR1 hfl hcb
        refine ⟨num, ?_, ?_⟩
        · exact hc4
        · unfold muc_requires_config
          have hgoal : muc_get (self_online_join_tail
              (ui_room_join { s with rooms := muc_set_affiliation (muc_set_role (muc_roster_add s.rooms room nick) room role) room affiliation } room false) room true).1.rooms room =
              some { { r with role := role, affiliation := affiliation, roster := if r.roster.contains nick then r.roster else r.roster ++ [nick] } with roster_complete := true, requires_config := if true then true else r.requires_config } := hg4
          rw [hgoal]
          rfl
    | false =>
        simp only [Bool.false_eq_true, if_false]
        obtain ⟨num, mw, hW, hrooms, hprefs, hfl, hcb⟩ :=
          ui_room_join_spec { s with rooms := muc_set_affiliation (muc_set_role (muc_roster_add s.rooms room nick) room role) room affiliation } room true
        have hR1 : muc_get (ui_room_join { s with rooms := muc_set_affiliation (muc_set_role (muc_roster_add s.rooms room nick) room role) room affiliation } room true).1.rooms room =
            some { r with role := role, affiliation := affiliation, roster := if r.roster.contains nick then r.roster else r.roster ++ [nick] } := by
          rw [hrooms]
          exact hC
        obtain ⟨hw4, hg4, hf4, hc4⟩ := self_online_join_tail_spec
          (ui_room_join { s with rooms := muc_set_affiliation (muc_set_role (muc_roster_add s.rooms room nick) room role) room affiliation } room true).1
          (ui_room_join { s with rooms := muc_set_affiliation (muc_set_role (muc_roster_add s.rooms room nick) room role) room affiliation } room true).2 room true num mw
          { r with role := role, affiliation := affiliation, roster := if r.roster.contains nick then r.roster else r.roster ++ [nick] } hW hR1 hfl hcb
        refine ⟨num, ?_, ?_⟩
        · exact hc4
        · unfold muc_requires_config
          have hgoal : muc_get (self_online_join_tail
              (ui_room_join { s with rooms := muc_set_affiliation (muc_set_role (muc_roster_add s.rooms room nick) room role) room affiliation } room true) room true).1.rooms room =
              some { { r with role := role, affiliation := affiliation, roster := if r.roster.contains nick then r.roster else r.roster ++ [nick] } with roster_complete := true, requires_config := if true then true else r.requires_config } := hg4
          rw [hgoal]
          rfl
  · intro t mucwin hconn hcur hjid hreq
    have hacc : cmd_room t ["accept"] =
        ({ t with rooms := muc_set_requires_config t.rooms room false },
         [Effect.net_iq_confirm_instant_room room,
          Effect.win_show t.wins.current "Room unlocked."]) := by
      unfold cmd_room
      rw [hconn]
      simp only [beq_self_eq_true, Bool.not_true, Bool.false_eq_true, if_false]
      simp only [hcur]
      rw [hjid, hreq]
      simp
    refine ⟨hacc, ?_, ?_⟩
    · rw [hacc]
    · rw [hacc]
      unfold muc_requires_config muc_set_requires_config
      have h := muc_get_muc_update t.rooms room room
        (fun q => { q with requires_config := false }) (fun _ => rfl)
      rw [h, if_pos rfl]
      cases muc_get t.rooms room <;> rfl
  · intro t mucwin hconn hcur hjid hreq
    unfold cmd_room
    rw [hconn]
    simp only [beq_self_eq_true, Bool.not_true, Bool.false_eq_true, if_false]
    simp only [hcur]
    rw [hjid, hreq]
    simp

/-- Witness for C5 at the sample state: the self-join with the configuration
flag emits exactly one configuration block and records the requirement; with
the room window focused, /room accept clears a recorded requirement without
touching the registry, and is rejected when no requirement is recorded. -/
theorem C5_requires_config_and_room_accept_witness :
    (∃ num : Nat,
      (sv_ev_muc_self_online sampleState "r@conf" "me" true none none).2.filter
          Effect.is_config_block = [Effect.room_requires_config_block num] ∧
      muc_requires_config
        (sv_ev_muc_self_online sampleState "r@conf" "me" true none none).1.rooms
        "r@conf" = true) ∧
    (cmd_room { sampleState with
        wins := { sampleState.wins with current := 3 },
        rooms := [{ sampleRoom with requires_config := true }] } ["accept"]).1.wins =
      { sampleState.wins with current := 3 } ∧
    cmd_room { sampleState with wins := { sampleState.wins with current := 3 } }
        ["accept"] =
      ({ sampleState with wins := { sampleState.wins with current := 3 } },
       [Effect.win_show 3 "Current room does not require configuration."]) := by
  refine ⟨?_, ?_, ?_⟩
  · exact (C5_requires_config_and_room_accept sampleState "r@conf" "me" none none
      sampleRoom rfl rfl rfl).1
  · exact ((C5_requires_config_and_room_accept sampleState "r@conf" "me" none none
      sampleRoom rfl rfl rfl).2.1 { sampleState with
        wins := { sampleState.wins with current := 3 },
        rooms := [{ sampleRoom with requires_config := true }] }
      { roomjid := "r@conf", unread := 0 } rfl (by decide) rfl rfl).2.1
  · exact (C5_requires_config_and_room_accept sampleState "r@conf" "me" none none
      sampleRoom rfl rfl rfl).2.2 { sampleState with
        wins := { sampleState.wins with current := 3 } }
      { roomjid := "r@conf", unread := 0 } rfl (by decide) rfl rfl

/-- Delivery of an inbound message to a freshly created (hence non-current,
history-unseen) chat window with both history preferences on: the replayed
history lines precede the rendered message, and nothing else in the trace
belongs to either class. -/
theorem ui_incoming_msg_fresh_filter (ext : Ext) (s0 : AppState) (num : Nat)
    (resource : Option String) (m : String) (nw : Bool) (c0 : ProfChatWin)
    (hby : wins_get_by_num s0.wins num = some (ProfWin.WIN_CHAT c0))
    (hnc : wins_is_current s0.wins num = false)
    (hhs : c0.history_shown = false)
    (hchlog : s0.prefs.chlog = true) (hhist : s0.prefs.history = true) :
    (ui_incoming_msg ext s0 num resource m none nw).2.filter
        (fun e => e.is_history_line || e.is_incoming_print) =
      (ext.chat_log_get_previous c0.barejid).map (Effect.history_line num) ++
      [Effect.win_print_incoming_message num
        (ext.roster_get_msg_display_name c0.barejid resource) m] := by
  have hbump : wins_get_by_num (wins_update_at s0.wins num win_bump_unread) num =
      some (ProfWin.WIN_CHAT { c0 with unread := c0.unread + 1 }) := by
    rw [wins_get_by_num_update_at, if_pos rfl, hby]
    rfl
  have hh2 : (win_show_history ext
      { s0 with wins := wins_update_at s0.wins num win_bump_unread } num
      c0.barejid).2 =
      (ext.chat_log_get_previous c0.barejid).map (Effect.history_line num) := by
    unfold win_show_history
    dsimp only
    simp only [hbump]
    dsimp only
    rw [hhs]
    rfl
  have hflash : (if s0.prefs.flash then [Effect.flash] else []).filter
      (fun e => e.is_history_line || e.is_incoming_print) = [] := by
    cases s0.prefs.flash <;> rfl
  have hbeep : (if s0.prefs.beep then [Effect.beep] else []).filter
      (fun e => e.is_history_line || e.is_incoming_print) = [] := by
    cases s0.prefs.beep <;> rfl
  have hnotif : (if s0.prefs.notify_message then [Effect.notify_message
      (ext.roster_get_msg_display_name c0.barejid resource) m] else []).filter
      (fun e => e.is_history_line || e.is_incoming_print) = [] := by
    cases s0.prefs.notify_message <;> rfl
  have hhead : ([Effect.status_bar_new num, Effect.cons_show_incoming_message
      (ext.roster_get_msg_display_name c0.barejid resource) num] : List Effect).filter
      (fun e => e.is_history_line || e.is_incoming_print) = [] := rfl
  have hprint : ([Effect.win_print_incoming_message num
      (ext.roster_get_msg_display_name c0.barejid resource) m] : List Effect).filter
      (fun e => e.is_history_line || e.is_incoming_print) =
      [Effect.win_print_incoming_message num
        (ext.roster_get_msg_display_name c0.barejid resource) m] := rfl
  have hmapf : ∀ l : List String, (l.map (Effect.history_line num)).filter
      (fun e => e.is_history_line || e.is_incoming_print) =
      l.map (Effect.history_line num) := by
    intro l
    induction l with
    | nil => rfl
    | cons a t ih =>
        simp only [List.map_cons, List.filter_cons]
        simp [Effect.is_history_line, Effect.is_incoming_print, ih]
  unfold ui_incoming_msg
  simp only [hby]
  rw [hnc]
  simp only [Bool.false_eq_true, if_false]
  rw [hchlog, hhist]
  simp only [Bool.and_self]
  rw [if_pos True.intro]
  rw [hh2]
  simp only [List.filter_append, List.filter_nil, hhead, hflash, hmapf, hprint,
    hbeep, hnotif, List.append_nil, List.nil_append]

/-- Setting the encryption mode of the chat window at a slot keeps the window
there, with only the mode changed. -/
theorem wins_get_by_num_set_enc (s : AppState) (num : Nat) (m : ProfEnc)
    (c : ProfChatWin)
    (h : wins_get_by_num s.wins num = some (ProfWin.WIN_CHAT c)) :
    wins_get_by_num (set_chat_enc_mode s num m).wins num =
      some (ProfWin.WIN_CHAT { c with enc_mode := m }) := by
  unfold set_chat_enc_mode
  dsimp only
  rw [wins_get_by_num_update_at, if_pos rfl, h]
  rfl

/-- C8: an inbound one-to-one message from a sender with no open chat window
creates a chat window for that bare address at the slot targeted by the
rendering, and with the chat-log and history preferences on every rendered
delivery replays the logged history lines before the new message (the
branches that render nothing emit neither class of effect). -/
theorem C8_new_window_history_before_message (ext : Ext) (s : AppState)
    (barejid : String) (resource : Option String) (message : String)
    (enc_message : Option String)
    (hnone : wins_get_chat s.wins barejid = none)
    (hcur : (wins_get_by_num s.wins s.wins.current).isSome = true)
    (hchlog : s.prefs.chlog = true) (hhist : s.prefs.history = true) :
    ∃ (n : Nat) (c : ProfChatWin),
      wins_get_by_num (sv_ev_incoming_message ext s barejid resource message
          enc_message).1.wins n = some (ProfWin.WIN_CHAT c) ∧
      c.barejid = barejid ∧
      ((sv_ev_incoming_message ext s barejid resource message enc_message).2.filter
          (fun e => e.is_history_line || e.is_incoming_print) = [] ∨
       ∃ d m1 : String,
        (sv_ev_incoming_message ext s barejid resource message enc_message).2.filter
            (fun e => e.is_history_line || e.is_incoming_print) =
          (ext.chat_log_get_previous barejid).map (Effect.history_line n) ++
          [Effect.win_print_incoming_message n d m1]) := by
  obtain ⟨h2le, hnotmem⟩ := wins_next_available_num_spec s.wins
  have hby0 : wins_get_by_num ({ windows := s.wins.windows ++
      [((wins_next_available_num s.wins), ProfWin.WIN_CHAT { barejid := barejid, unread := 0, enc_mode := ProfEnc.PROF_ENC_NONE, otr_is_trusted := false, history_shown := false })], current := s.wins.current } : Wins) (wins_next_available_num s.wins) =
      some (ProfWin.WIN_CHAT { barejid := barejid, unread := 0, enc_mode := ProfEnc.PROF_ENC_NONE, otr_is_trusted := false, history_shown := false }) :=
    wins_get_by_num_append_fresh s.wins.windows s.wins.current (wins_next_available_num s.wins) _ hnotmem
  have hmemcur : s.wins.current ∈ s.wins.windows.map Prod.fst := by
    cases hw : wins_get_by_num s.wins s.wins.current with
    | none => rw [hw] at hcur; cases hcur
    | some w => exact wins_get_by_num_mem s.wins s.wins.current w hw
  have hneq : s.wins.current ≠ (wins_next_available_num s.wins) := fun he => hnotmem (he ▸ hmemcur)
  have hnc0 : wins_is_current ({ windows := s.wins.windows ++
      [((wins_next_available_num s.wins), ProfWin.WIN_CHAT { barejid := barejid, unread := 0, enc_mode := ProfEnc.PROF_ENC_NONE, otr_is_trusted := false, history_shown := false })], current := s.wins.current } : Wins) (wins_next_available_num s.wins) = false := by
    unfold wins_is_current
    dsimp only
    exact beq_eq_false_iff_ne.mpr hneq
  have hem : chat_enc_mode_at { s with wins := { windows := s.wins.windows ++ [((wins_next_available_num s.wins), ProfWin.WIN_CHAT { barejid := barejid, unread := 0, enc_mode := ProfEnc.PROF_ENC_NONE, otr_is_trusted := false, history_shown := false })], current := s.wins.current } } (wins_next_available_num s.wins) = ProfEnc.PROF_ENC_NONE := by
    unfold chat_enc_mode_at
    dsimp only
    simp only [hby0]
  unfold sv_ev_incoming_message
  simp only [hnone]
  unfold wins_new_chat
  dsimp only
  simp only [hem]
  cases enc_message with
  | some encm =>
      rw [show (ProfEnc.PROF_ENC_NONE == ProfEnc.PROF_ENC_OTR) = false from rfl]
      simp only [Bool.false_eq_true, if_false]
      cases hdec : ext.p_gpg_decrypt encm with
      | some decrypted =>
          dsimp only
          rw [show (ProfEnc.PROF_ENC_NONE == ProfEnc.PROF_ENC_NONE) = true from rfl,
            if_pos rfl]
          obtain ⟨c1, hby1, henc1, hbare1⟩ := ui_incoming_msg_chat_preserved ext
            { s with wins := { windows := s.wins.windows ++ [((wins_next_available_num s.wins), ProfWin.WIN_CHAT { barejid := barejid, unread := 0, enc_mode := ProfEnc.PROF_ENC_NONE, otr_is_trusted := false, history_shown := false })], current := s.wins.current } } (wins_next_available_num s.wins) resource decrypted none true { barejid := barejid, unread := 0, enc_mode := ProfEnc.PROF_ENC_NONE, otr_is_trusted := false, history_shown := false } hby0
          have hui := ui_incoming_msg_fresh_filter ext { s with wins := { windows := s.wins.windows ++ [((wins_next_available_num s.wins), ProfWin.WIN_CHAT { barejid := barejid, unread := 0, enc_mode := ProfEnc.PROF_ENC_NONE, otr_is_trusted := false, history_shown := false })], current := s.wins.current } } (wins_next_available_num s.wins) resource decrypted true
            { barejid := barejid, unread := 0, enc_mode := ProfEnc.PROF_ENC_NONE, otr_is_trusted := false, history_shown := false } hby0 hnc0 rfl hchlog hhist
          refine ⟨(wins_next_available_num s.wins), { c1 with enc_mode := ProfEnc.PROF_ENC_PGP }, ?_, ?_,
            Or.inr ⟨ext.roster_get_msg_display_name barejid resource, decrypted, ?_⟩⟩
          · exact wins_get_by_num_set_enc
              (ui_incoming_msg ext { s with wins := { windows := s.wins.windows ++ [((wins_next_available_num s.wins), ProfWin.WIN_CHAT { barejid := barejid, unread := 0, enc_mode := ProfEnc.PROF_ENC_NONE, otr_is_trusted := false, history_shown := false })], current := s.wins.current } } (wins_next_available_num s.wins) resource decrypted none true).1 (wins_next_available_num s.wins)
              ProfEnc.PROF_ENC_PGP c1 hby1
          · exact hbare1.trans rfl
          · dsimp only
            rw [List.filter_append, List.filter_append, hui]
            simp [Effect.is_history_line, Effect.is_incoming_print]
      | none =>
          dsimp only
          obtain ⟨c1, hby1, henc1, hbare1⟩ := ui_incoming_msg_chat_preserved ext
            { s with wins := { windows := s.wins.windows ++ [((wins_next_available_num s.wins), ProfWin.WIN_CHAT { barejid := barejid, unread := 0, enc_mode := ProfEnc.PROF_ENC_NONE, otr_is_trusted := false, history_shown := false })], current := s.wins.current } } (wins_next_available_num s.wins) resource message none true { barejid := barejid, unread := 0, enc_mode := ProfEnc.PROF_ENC_NONE, otr_is_trusted := false, history_shown := false } hby0
          have hui := ui_incoming_msg_fresh_filter ext { s with wins := { windows := s.wins.windows ++ [((wins_next_available_num s.wins), ProfWin.WIN_CHAT { barejid := barejid, unread := 0, enc_mode := ProfEnc.PROF_ENC_NONE, otr_is_trusted := false, history_shown := false })], current := s.wins.current } } (wins_next_available_num s.wins) resource message true
            { barejid := barejid, unread := 0, enc_mode := ProfEnc.PROF_ENC_NONE, otr_is_trusted := false, history_shown := false } hby0 hnc0 rfl hchlog hhist
          refine ⟨(wins_next_available_num s.wins), { c1 with enc_mode := ProfEnc.PROF_ENC_NONE }, ?_, ?_,
            Or.inr ⟨ext.roster_get_msg_display_name barejid resource, message, ?_⟩⟩
          · exact wins_get_by_num_set_enc
              (ui_incoming_msg ext { s with wins := { windows := s.wins.windows ++ [((wins_next_available_num s.wins), ProfWin.WIN_CHAT { barejid := barejid, unread := 0, enc_mode := ProfEnc.PROF_ENC_NONE, otr_is_trusted := false, history_shown := false })], current := s.wins.current } } (wins_next_available_num s.wins) resource message none true).1 (wins_next_available_num s.wins)
              ProfEnc.PROF_ENC_NONE c1 hby1
          · exact hbare1.trans rfl
          · dsimp only
            rw [List.filter_append, hui]
            simp [Effect.is_history_line, Effect.is_incoming_print]
  | none =>
      rw [show (ProfEnc.PROF_ENC_NONE == ProfEnc.PROF_ENC_PGP) = false from rfl]
      simp only [Bool.false_eq_true, if_false]
      cases hotr : ext.otr_on_message_recv barejid resource message with
      | some res =>
          dsimp only
          obtain ⟨c1, hby1, henc1, hbare1⟩ := ui_incoming_msg_chat_preserved ext
            { s with wins := { windows := s.wins.windows ++ [((wins_next_available_num s.wins), ProfWin.WIN_CHAT { barejid := barejid, unread := 0, enc_mode := ProfEnc.PROF_ENC_NONE, otr_is_trusted := false, history_shown := false })], current := s.wins.current } } (wins_next_available_num s.wins) resource res.1 none true { barejid := barejid, unread := 0, enc_mode := ProfEnc.PROF_ENC_NONE, otr_is_trusted := false, history_shown := false } hby0
          have hui := ui_incoming_msg_fresh_filter ext { s with wins := { windows := s.wins.windows ++ [((wins_next_available_num s.wins), ProfWin.WIN_CHAT { barejid := barejid, unread := 0, enc_mode := ProfEnc.PROF_ENC_NONE, otr_is_trusted := false, history_shown := false })], current := s.wins.current } } (wins_next_available_num s.wins) resource res.1 true
            { barejid := barejid, unread := 0, enc_mode := ProfEnc.PROF_ENC_NONE, otr_is_trusted := false, history_shown := false } hby0 hnc0 rfl hchlog hhist
          refine ⟨(wins_next_available_num s.wins), c1, hby1, hbare1.trans rfl,
            Or.inr ⟨ext.roster_get_msg_display_name barejid resource, res.1, ?_⟩⟩
          dsimp only
          rw [List.filter_append, hui]
          simp [Effect.is_history_line, Effect.is_incoming_print]
      | none =>
          exact ⟨(wins_next_available_num s.wins), { barejid := barejid, unread := 0, enc_mode := ProfEnc.PROF_ENC_NONE, otr_is_trusted := false, history_shown := false }, hby0, rfl, Or.inl rfl⟩

/-- Witness for C8: at the sample state with logging and history on, a
message from carol@ex.org (no open chat window) creates a chat window at the
rendered slot, and the rendered trace replays history before the message. -/
theorem C8_new_window_history_before_message_witness :
    wins_get_chat ({ sampleState with prefs := { samplePrefs with chlog := true, history := true } } : AppState).wins "carol@ex.org" = none ∧
    (wins_get_by_num ({ sampleState with prefs := { samplePrefs with chlog := true, history := true } } : AppState).wins ({ sampleState with prefs := { samplePrefs with chlog := true, history := true } } : AppState).wins.current).isSome =
      true ∧
    ({ sampleState with prefs := { samplePrefs with chlog := true, history := true } } : AppState).prefs.chlog = true ∧
    ({ sampleState with prefs := { samplePrefs with chlog := true, history := true } } : AppState).prefs.history = true ∧
    (∃ (n : Nat) (c : ProfChatWin),
      wins_get_by_num (sv_ev_incoming_message sampleExt { sampleState with prefs := { samplePrefs with chlog := true, history := true } }
          "carol@ex.org" none "hi" none).1.wins n = some (ProfWin.WIN_CHAT c) ∧
      c.barejid = "carol@ex.org" ∧
      ((sv_ev_incoming_message sampleExt { sampleState with prefs := { samplePrefs with chlog := true, history := true } } "carol@ex.org" none "hi" none).2.filter
          (fun e => e.is_history_line || e.is_incoming_print) = [] ∨
       ∃ d m1 : String,
        (sv_ev_incoming_message sampleExt { sampleState with prefs := { samplePrefs with chlog := true, history := true } } "carol@ex.org" none "hi"
            none).2.filter
            (fun e => e.is_history_line || e.is_incoming_print) =
          (sampleExt.chat_log_get_previous "carol@ex.org").map
            (Effect.history_line n) ++
          [Effect.win_print_incoming_message n d m1])) :=
  ⟨by decide, by decide, rfl, rfl,
   C8_new_window_history_before_message sampleExt { sampleState with prefs := { samplePrefs with chlog := true, history := true } } "carol@ex.org" none "hi" none
     (by decide) (by decide) rfl rfl⟩

end Profanity
